import Mathlib

/-!
Verification of the PlanetaryPI conversion engine (src/app.py).

Modelling conventions:
- Python float arithmetic is modelled as exact rational arithmetic over the
  rationals.  All quantities the program keeps in floats (elapsed seconds,
  sols, fractions of a day) are values of type Rat here.
- The aware datetime objects of the engine are modelled by the instant they
  denote, kept as rational seconds relative to the shared reference epoch
  2025-01-01 00:00:00 UTC, together with the utcoffset (in seconds) of the
  attached timezone.  The proleptic Gregorian calendar arithmetic of the
  datetime library is modelled by the ymd2ord and ord2ymd functions below,
  which follow the algorithms used by the datetime module (toordinal and
  fromordinal).  The zoneinfo database is modelled by a table of fixed
  standard offsets; daylight saving transitions are not modelled (the claims
  under verification only involve the UTC zone and unknown zone names).
- Python int(x) on a float is truncation toward zero (pyTrunc below);
  x // y on floats is the floor of the quotient; x % y on floats is
  x - y * floor (x / y); // and % on ints are floor division and the
  matching modulus (Int.fdiv and Int.fmod).
- An uncaught Python exception is modelled by the error branch of Except;
  a string returned normally (including the returned error-message strings
  that the program produces for caught parse failures) is the ok branch.
  Exception message interpolation is abbreviated to fixed strings.
-/

/-! ## Python numeric and string primitives -/

/-- Python int() applied to a float: truncation toward zero. -/
def pyTrunc (q : ℚ) : Int := if 0 ≤ q then ⌊q⌋ else ⌈q⌉

/-- Python float modulus: x % y = x - y * floor(x / y) (sign follows y). -/
def pyFMod (x y : ℚ) : ℚ := x - y * ⌊x / y⌋

/-- Decimal digits, fuel-driven so that the kernel can evaluate it. -/
def natDigitsAux : Nat → Nat → List Char
  | 0, _ => []
  | fuel + 1, n =>
    if n < 10 then [Nat.digitChar n]
    else natDigitsAux fuel (n / 10) ++ [Nat.digitChar (n % 10)]

/-- Decimal digits of a natural number, most significant first. -/
def natDigits (n : Nat) : List Char := natDigitsAux (n + 1) n

/-- Python str() of an int. -/
def intRepr (n : Int) : String :=
  (if n < 0 then "-" else "") ++ String.mk (natDigits n.natAbs)

/-- Python format(n, "0Nd"): zero padding to total width w, sign included in
the width, digits printed in full when they do not fit. -/
def pyPad0 (w : Nat) (n : Int) : String :=
  let ds := natDigits n.natAbs
  let sgn := if n < 0 then 1 else 0
  (if n < 0 then "-" else "") ++ String.mk (List.replicate (w - ds.length - sgn) '0' ++ ds)

/-- Zero padding of a natural number to width w (strftime style). -/
def padNat (w n : Nat) : String :=
  String.mk (List.replicate (w - (natDigits n).length) '0' ++ natDigits n)

/-- Value of a nonempty all-digit character list. -/
def digitsVal? (l : List Char) : Option Nat :=
  if l ≠ [] ∧ l.all Char.isDigit then
    some (l.foldl (fun a c => a * 10 + (c.toNat - 48)) 0)
  else none

/-- Python int(s) on a plain signed decimal literal (no whitespace, no
underscores; the program only meets plain literals and arbitrary garbage,
and both sides reject the garbage). -/
def pyInt? (s : String) : Option Int :=
  match s.data with
  | c :: rest =>
    if c = '-' then (digitsVal? rest).map (fun n => -(n : Int))
    else if c = '+' then (digitsVal? rest).map (fun n => (n : Int))
    else (digitsVal? (c :: rest)).map (fun n => (n : Int))
  | [] => none

/-- Split a character list at every occurrence of a separator character
(Python str.split with a one-character separator). -/
def splitOnCharAux : List Char → Char → List Char → List (List Char)
  | [], _, acc => [acc.reverse]
  | c :: rest, sep, acc =>
    if c = sep then acc.reverse :: splitOnCharAux rest sep []
    else splitOnCharAux rest sep (c :: acc)

/-- Python s.split(sep) for a one-character separator. -/
def pySplit (s : String) (sep : Char) : List String :=
  (splitOnCharAux s.data sep []).map String.mk

/-! ## Proleptic Gregorian calendar (model of the datetime module) -/

def daysInMonthTable : List Nat := [0,31,28,31,30,31,30,31,31,30,31,30,31]

def daysBeforeMonthTable : List Nat := [0,0,31,59,90,120,151,181,212,243,273,304,334]

/-- Leap year test of the Gregorian calendar. -/
def isLeapN (y : Nat) : Bool := y % 4 == 0 && (y % 100 != 0 || y % 400 == 0)

/-- Days in a month given an explicit leap flag. -/
def dimF (L : Bool) (m : Nat) : Nat :=
  if m = 2 ∧ L then 29 else daysInMonthTable.getD m 0

/-- Days before a month within a year given an explicit leap flag. -/
def dbmF (L : Bool) (m : Nat) : Nat :=
  daysBeforeMonthTable.getD m 0 + (if 2 < m ∧ L then 1 else 0)

def daysInMonthN (y m : Nat) : Nat := dimF (isLeapN y) m

def daysBeforeMonthN (y m : Nat) : Nat := dbmF (isLeapN y) m

/-- Days before January 1 of year y, counting from ordinal 0. -/
def daysBeforeYearN (y : Nat) : Nat :=
  365 * (y - 1) + (y - 1) / 4 - (y - 1) / 100 + (y - 1) / 400

/-- Ordinal of a calendar date (date.toordinal of the datetime module);
ordinal 1 is 0001-01-01. -/
def ymd2ord (y m d : Nat) : Nat := daysBeforeYearN y + daysBeforeMonthN y m + d

/-- Month and day from the day index n within a year (0 based), given the
leap flag; the shift-and-correct computation used by date.fromordinal. -/
def monthDayOf (L : Bool) (n : Nat) : Nat × Nat :=
  let month := (n + 50) / 32
  let preceding := dbmF L month
  let mp :=
    if n < preceding then (month - 1, preceding - dimF L (month - 1))
    else (month, preceding)
  (mp.1, n - mp.2 + 1)

/-- Calendar date within one 400 year era from the day index n0 within the
era (0 based); the cascade of divisions used by date.fromordinal. -/
def ord2ymdEra (n0 : Nat) : Nat × Nat × Nat :=
  let n100 := n0 / 36524
  let r1 := n0 % 36524
  let n4 := r1 / 1461
  let r2 := r1 % 1461
  let n1 := r2 / 365
  let n := r2 % 365
  let year := 1 + n100 * 100 + n4 * 4 + n1
  if n1 = 4 ∨ n100 = 4 then (year - 1, 12, 31)
  else
    let md := monthDayOf (n1 == 3 && (n4 != 24 || n100 == 3)) n
    (year, md.1, md.2)

/-- Calendar date of an ordinal (date.fromordinal of the datetime module). -/
def ord2ymd (N : Nat) : Nat × Nat × Nat :=
  let n := N - 1
  let t := ord2ymdEra (n % 146097)
  ((n / 146097) * 400 + t.1, t.2.1, t.2.2)

/-! ### Calendar round-trip lemmas -/

/-- Per-day check of the month/day part of the fromordinal computation. -/
def mdOK (L : Bool) (n : Nat) : Bool :=
  let md := monthDayOf L n
  (dbmF L md.1 + md.2 == n + 1) && Nat.ble 1 md.1 && Nat.ble md.1 12 &&
    Nat.ble 1 md.2 && Nat.ble md.2 (dimF L md.1)

/-- Per-date check of the reverse direction of the month/day computation,
with the valid (month, day) pairs packed into a single index. -/
def mdRevOK (L : Bool) (i : Nat) : Bool :=
  let m := i / 32 + 1
  let d := i % 32 + 1
  if Nat.ble d (dimF L m) && Nat.ble m 12 then
    (monthDayOf L (dbmF L m + d - 1) == (m, d)) &&
      Nat.ble (dbmF L m + d) (if L then 366 else 365)
  else true

/-! ## Seconds-based view of naive datetimes -/

/-- Seconds from 0001-01-01 00:00:00 to the epoch 2025-01-01 00:00:00. -/
def EPOCH_ABS : Nat := 739251 * 86400

/-- One second past the largest representable datetime (year 9999). -/
def MAX_ABS : Nat := 3652059 * 86400

/-- Naive datetime fields, in the order of the fixed format
dd/mm/yyyy HH:MM:SS. -/
structure EarthDT where
  day : Nat
  month : Nat
  year : Nat
  hour : Nat
  minute : Nat
  second : Nat
deriving DecidableEq

def validEarthDT (f : EarthDT) : Prop :=
  1 ≤ f.year ∧ f.year ≤ 9999 ∧ 1 ≤ f.month ∧ f.month ≤ 12 ∧
  1 ≤ f.day ∧ f.day ≤ daysInMonthN f.year f.month ∧
  f.hour ≤ 23 ∧ f.minute ≤ 59 ∧ f.second ≤ 59

instance (f : EarthDT) : Decidable (validEarthDT f) := by
  unfold validEarthDT
  infer_instance

/-- Seconds from 0001-01-01 00:00:00 to the naive datetime f. -/
def naiveAbs (f : EarthDT) : Nat :=
  (ymd2ord f.year f.month f.day - 1) * 86400 +
    f.hour * 3600 + f.minute * 60 + f.second

/-- The naive datetime lying s seconds after 0001-01-01 00:00:00. -/
def fieldsOfAbs (s : Nat) : EarthDT :=
  let t := ord2ymd (s / 86400 + 1)
  ⟨t.2.2, t.2.1, t.1, s % 86400 / 3600, s % 86400 % 3600 / 60, s % 86400 % 60⟩

/-! ## The fixed dd/mm/yyyy HH:MM:SS format: rendering and strptime -/

/-- Render of strftime with format dd/mm/yyyy HH:MM:SS (all zero padded). -/
def renderEarthDT (f : EarthDT) : String :=
  padNat 2 f.day ++ "/" ++ padNat 2 f.month ++ "/" ++ padNat 4 f.year ++ " " ++
    padNat 2 f.hour ++ ":" ++ padNat 2 f.minute ++ ":" ++ padNat 2 f.second

/-- Greedy digit consumption (at most k further digits), as strptime does. -/
def takeDigitsAux : Nat → Nat → List Char → Nat × List Char
  | 0, acc, cs => (acc, cs)
  | _ + 1, acc, [] => (acc, [])
  | k + 1, acc, c :: rest =>
    if c.isDigit then takeDigitsAux k (acc * 10 + (c.toNat - 48)) rest
    else (acc, c :: rest)

/-- Consume 1 to k digits from the front (the numeric directives of
strptime accept unpadded values but at most the directive width). -/
def takeDigits (k : Nat) : List Char → Option (Nat × List Char)
  | c :: rest =>
    if c.isDigit then some (takeDigitsAux (k - 1) (c.toNat - 48) rest) else none
  | [] => none

def expectChar (c : Char) : List Char → Option (List Char)
  | x :: rest => if x = c then some rest else none
  | [] => none

/-- Model of datetime.strptime with format dd/mm/yyyy HH:MM:SS followed by
the datetime constructor: scans the fields and validates the ranges that
strptime and the constructor enforce (a failure of either is one caught
ValueError in the program). -/
def strptimeFields (s : String) : Option EarthDT :=
  match takeDigits 2 s.data with
  | none => none
  | some (d, r1) =>
  match expectChar '/' r1 with
  | none => none
  | some r2 =>
  match takeDigits 2 r2 with
  | none => none
  | some (mo, r3) =>
  match expectChar '/' r3 with
  | none => none
  | some r4 =>
  match takeDigits 4 r4 with
  | none => none
  | some (y, r5) =>
  match expectChar ' ' r5 with
  | none => none
  | some r6 =>
  match takeDigits 2 r6 with
  | none => none
  | some (h, r7) =>
  match expectChar ':' r7 with
  | none => none
  | some r8 =>
  match takeDigits 2 r8 with
  | none => none
  | some (mi, r9) =>
  match expectChar ':' r9 with
  | none => none
  | some r10 =>
  match takeDigits 2 r10 with
  | none => none
  | some (sec, r11) =>
  if r11 = [] ∧ 1 ≤ y ∧ y ≤ 9999 ∧ 1 ≤ mo ∧ mo ≤ 12 ∧ 1 ≤ d ∧
      d ≤ daysInMonthN y mo ∧ h ≤ 23 ∧ mi ≤ 59 ∧ sec ≤ 59 then
    some ⟨d, mo, y, h, mi, sec⟩
  else none

/-! ## Aware datetimes and the zoneinfo model -/

/-- An aware datetime: the instant it denotes, as rational seconds since the
epoch 2025-01-01 00:00:00 UTC, and the utcoffset in seconds of the attached
timezone. -/
structure PyDateTime where
  instant : ℚ
  off : Int

/-- Fixed standard offsets for the zones the program can meet in this
development; every other name fails the lookup, as zoneinfo raises
ZoneInfoNotFoundError for unknown keys.  Daylight saving is not modelled. -/
def zoneOffsets : List (String × Int) :=
  [("UTC", 0), ("Europe/London", 0), ("Europe/Paris", 3600),
   ("America/New_York", -18000), ("Asia/Tokyo", 32400)]

/-- Model of ZoneInfo(name): the fixed utcoffset, or a lookup failure. -/
def zoneInfo (name : String) : Option Int :=
  (zoneOffsets.find? (fun p => p.1 == name)).map (fun p => p.2)

/-- Uncaught Python exceptions that can cross the conversion functions. -/
inductive PyExn where
  | zoneNotFound (name : String)
  | overflow
deriving DecidableEq

/-- Model of ref_earth + timedelta(seconds=q): fails with OverflowError when
the resulting UTC datetime leaves the representable range (years 1..9999).
The timezone of the result is UTC. -/
def refPlusSeconds (q : ℚ) : Option PyDateTime :=
  if -(EPOCH_ABS : ℚ) ≤ q ∧ q < (MAX_ABS : ℚ) - (EPOCH_ABS : ℚ) then some ⟨q, 0⟩
  else none

/-- Model of strftime with format dd/mm/yyyy HH:MM:SS on an aware datetime:
renders the local wall clock, truncating fractional seconds. -/
def pyStrftime (dt : PyDateTime) : String :=
  renderEarthDT (fieldsOfAbs ((⌊dt.instant + (dt.off : ℚ)⌋ + (EPOCH_ABS : Int)).toNat))

/-- Model of strptime with format dd/mm/yyyy HH:MM:SS followed by
replace(tzinfo=z) for a zone of utcoffset off. -/
def pyStrptimeTZ (s : String) (off : Int) : Option PyDateTime :=
  (strptimeFields s).map fun f =>
    ⟨((naiveAbs f : Int) - (EPOCH_ABS : Int) - off : Int), off⟩

/-- Model of astimezone for a zone of fixed utcoffset: the instant is kept,
only the attached offset changes. -/
def astimezone (dt : PyDateTime) (off : Int) : PyDateTime := ⟨dt.instant, off⟩

/-! ## Engine constants (src/app.py) -/

/-- 24 h 40 min: seconds per Martian sol. -/
def SOL_SECONDS : ℚ := 24 * 3600 + 40 * 60

/-- 24 Mars hours per sol. -/
def MARS_HOURS_PER_DAY : ℚ := 24

/-- 3700 seconds per Mars hour. -/
def MARS_HOUR_LENGTH : ℚ := SOL_SECONDS / 24

/-- Assumed number of sols per Martian year. -/
def MARS_YEAR_SOLS : Int := 668

/-- Mars reference: Earth 2025-01-01 00:00:00 UTC maps to Mars 0/01 01:03:05
at longitude 0. -/
def MARS_REF_OFFSET_SECONDS : ℚ := 3885

def MARS_LONG_DIVISOR : ℚ := 15

/-- 7 h 39 min: seconds per Phobos day. -/
def PHOBOS_SOL_SECONDS : ℚ := 7 * 3600 + 39 * 60

def PHOBOS_HOURS_PER_DAY : ℚ := 9

/-- 3060 seconds per Phobos hour. -/
def PHOBOS_HOUR_LENGTH : ℚ := PHOBOS_SOL_SECONDS / PHOBOS_HOURS_PER_DAY

def PHOBOS_YEAR_DAYS : Int := 1000

def PHOBOS_LONG_DIVISOR : ℚ := 40

/-- 10 x 63 x 60 = 37800 seconds per Saturn day. -/
def SATURN_SOL_SECONDS : ℚ := 10 * 63 * 60

def SATURN_HOURS_PER_DAY : ℚ := 10

/-- 3780 seconds per Saturn hour. -/
def SATURN_HOUR_LENGTH : ℚ := SATURN_SOL_SECONDS / SATURN_HOURS_PER_DAY

def SATURN_YEAR_DAYS : Int := 1000

def SATURN_LONG_DIVISOR : ℚ := 36

/-! ## Parsing helpers shared by the dispatch code -/

/-- The date parsing done inline in perform_conversion for non-Earth bodies:
split on the slash, demand exactly two parts, int() each part. -/
def parseBodyDate (date_str : String) : Option (Int × Int) :=
  let parts := pySplit date_str '/'
  if parts.length = 2 then
    match pyInt? (parts.getD 0 ""), pyInt? (parts.getD 1 "") with
    | some a, some b => some (a, b)
    | _, _ => none
  else none

/-- The time parsing done inside the body-to-Earth converters: split on the
colon, demand exactly three parts, int() each part. -/
def parseTime3 (time_str : String) : Option (Int × Int × Int) :=
  let parts := pySplit time_str ':'
  if parts.length = 3 then
    match pyInt? (parts.getD 0 ""), pyInt? (parts.getD 1 ""), pyInt? (parts.getD 2 "") with
    | some h, some m, some s => some (h, m, s)
    | _, _, _ => none
  else none

/-! ## Earth to body encoders -/

/-- Formatting of a (year, day, hour, minute, second) tuple in the body
notation used by the Mars and Saturn encoders: year unpadded, the rest
zero padded to width 2. -/
def renderBodyDate (t : Int × Int × Int × Int × Int) : String :=
  intRepr t.1 ++ "/" ++ pyPad0 2 t.2.1 ++ " " ++ pyPad0 2 t.2.2.1 ++ ":" ++
    pyPad0 2 t.2.2.2.1 ++ ":" ++ pyPad0 2 t.2.2.2.2

/-- Field computation of convert_earth_to_mars_date (src/app.py:162-183).
int(x // y) on the nonnegative remainder chain is the floor; int() on the
possibly negative adjusted sol count is pyTrunc. -/
def convert_earth_to_mars_fields (earth_instant : ℚ) (planetary_longitude : ℚ) :
    Int × Int × Int × Int × Int :=
  let elapsed_seconds := earth_instant + MARS_REF_OFFSET_SECONDS
  let sols_elapsed := elapsed_seconds / SOL_SECONDS
  let timezone_offset_in_sols := (planetary_longitude / MARS_LONG_DIVISOR) / MARS_HOURS_PER_DAY
  let adjusted_sols := sols_elapsed + timezone_offset_in_sols
  let sols_passed := pyTrunc adjusted_sols
  let fractional_sol := adjusted_sols - (sols_passed : ℚ)
  let total_mars_seconds := fractional_sol * SOL_SECONDS
  let mars_hour := ⌊total_mars_seconds / MARS_HOUR_LENGTH⌋
  let remainder := pyFMod total_mars_seconds MARS_HOUR_LENGTH
  let mars_minute := ⌊remainder / 60⌋
  let mars_second := ⌊pyFMod remainder 60⌋
  let martian_year := Int.fdiv sols_passed MARS_YEAR_SOLS
  let sol_of_year := Int.fmod sols_passed MARS_YEAR_SOLS + 1
  (martian_year, sol_of_year, mars_hour, mars_minute, mars_second)

/-- convert_earth_to_mars_date (src/app.py:162-183).  The earth_timezone
parameter is unused there exactly as here: the function always converts the
aware datetime to UTC. -/
def convert_earth_to_mars_date (earth_date : PyDateTime) (earth_timezone : String)
    (planetary_longitude : ℚ) : String :=
  renderBodyDate (convert_earth_to_mars_fields earth_date.instant planetary_longitude)

/-- Field computation of convert_earth_to_phobos_date (src/app.py:215-234):
only a running day count (days_passed + 1) and the time of day; no year
field and no reduction modulo the year length. -/
def convert_earth_to_phobos_fields (earth_instant : ℚ) (planetary_longitude : ℚ) :
    Int × Int × Int × Int :=
  let elapsed_seconds := earth_instant
  let phobos_days_elapsed := elapsed_seconds / PHOBOS_SOL_SECONDS
  let offset_fraction := (planetary_longitude / PHOBOS_LONG_DIVISOR) / PHOBOS_HOURS_PER_DAY
  let adjusted_days := phobos_days_elapsed + offset_fraction
  let days_passed := pyTrunc adjusted_days
  let fractional_day := adjusted_days - (days_passed : ℚ)
  let total_phobos_seconds := fractional_day * PHOBOS_SOL_SECONDS
  let phobos_hour := ⌊total_phobos_seconds / PHOBOS_HOUR_LENGTH⌋
  let remainder := pyFMod total_phobos_seconds PHOBOS_HOUR_LENGTH
  let phobos_minute := ⌊remainder / 60⌋
  let phobos_second := ⌊pyFMod remainder 60⌋
  (days_passed + 1, phobos_hour, phobos_minute, phobos_second)

def renderPhobosDate (t : Int × Int × Int × Int) : String :=
  "Phobos Day " ++ pyPad0 2 t.1 ++ " " ++ pyPad0 2 t.2.1 ++ ":" ++
    pyPad0 2 t.2.2.1 ++ ":" ++ pyPad0 2 t.2.2.2

/-- convert_earth_to_phobos_date (src/app.py:215-234). -/
def convert_earth_to_phobos_date (earth_date : PyDateTime) (earth_timezone : String)
    (planetary_longitude : ℚ) : String :=
  renderPhobosDate (convert_earth_to_phobos_fields earth_date.instant planetary_longitude)

/-- Field computation of convert_earth_to_saturn_date (src/app.py:265-286). -/
def convert_earth_to_saturn_fields (earth_instant : ℚ) (planetary_longitude : ℚ) :
    Int × Int × Int × Int × Int :=
  let elapsed_seconds := earth_instant
  let saturn_days_elapsed := elapsed_seconds / SATURN_SOL_SECONDS
  let timezone_offset_in_sats := (planetary_longitude / SATURN_LONG_DIVISOR) / SATURN_HOURS_PER_DAY
  let adjusted_days := saturn_days_elapsed + timezone_offset_in_sats
  let days_passed := pyTrunc adjusted_days
  let fractional_day := adjusted_days - (days_passed : ℚ)
  let total_saturn_seconds := fractional_day * SATURN_SOL_SECONDS
  let saturn_hour := ⌊total_saturn_seconds / SATURN_HOUR_LENGTH⌋
  let remainder := pyFMod total_saturn_seconds SATURN_HOUR_LENGTH
  let saturn_minute := ⌊remainder / 60⌋
  let saturn_second := ⌊pyFMod remainder 60⌋
  let saturn_year := Int.fdiv days_passed SATURN_YEAR_DAYS
  let day_of_year := Int.fmod days_passed SATURN_YEAR_DAYS + 1
  (saturn_year, day_of_year, saturn_hour, saturn_minute, saturn_second)

/-- convert_earth_to_saturn_date (src/app.py:265-286). -/
def convert_earth_to_saturn_date (earth_date : PyDateTime) (earth_timezone : String)
    (planetary_longitude : ℚ) : String :=
  renderBodyDate (convert_earth_to_saturn_fields earth_date.instant planetary_longitude)

/-! ## Body to Earth decoders -/

/-- convert_mars_to_earth_date (src/app.py:185-210).  The time-parsing
failure is caught inside the function and returned as a message string;
the datetime overflow and the destination-zone lookup are not guarded
by any try block and escape as exceptions. -/
def convert_mars_to_earth_date (mars_year sol_of_year : Int) (mars_time_str : String)
    (planetary_longitude : ℚ) (earth_timezone : String) : Except PyExn String :=
  match parseTime3 mars_time_str with
  | none => .ok "Error parsing Mars time: invalid time string"
  | some (mars_hour, mars_minute, mars_second) =>
    let total_mars_seconds : ℚ :=
      (mars_hour : ℚ) * MARS_HOUR_LENGTH + (mars_minute : ℚ) * 60 + (mars_second : ℚ)
    let mars_time_fraction := total_mars_seconds / SOL_SECONDS
    let mars_total_sols_adjusted :=
      ((mars_year * MARS_YEAR_SOLS + (sol_of_year - 1) : Int) : ℚ) + mars_time_fraction
    let timezone_offset_in_sols := (planetary_longitude / MARS_LONG_DIVISOR) / MARS_HOURS_PER_DAY
    let reference_offset_fraction := MARS_REF_OFFSET_SECONDS / SOL_SECONDS
    let sols_elapsed := mars_total_sols_adjusted - reference_offset_fraction - timezone_offset_in_sols
    let elapsed_seconds := sols_elapsed * SOL_SECONDS
    match refPlusSeconds elapsed_seconds with
    | none => .error .overflow
    | some earth_date_utc =>
      match zoneInfo earth_timezone with
      | none => .error (.zoneNotFound earth_timezone)
      | some off => .ok (pyStrftime (astimezone earth_date_utc off))

/-- convert_phobos_to_earth_date (src/app.py:236-260). -/
def convert_phobos_to_earth_date (phobos_year phobos_day : Int) (phobos_time_str : String)
    (planetary_longitude : ℚ) (earth_timezone : String) : Except PyExn String :=
  match parseTime3 phobos_time_str with
  | none => .ok "Error parsing Phobos time: invalid time string"
  | some (phobos_hour, phobos_minute, phobos_second) =>
    let total_phobos_seconds : ℚ :=
      (phobos_hour : ℚ) * PHOBOS_HOUR_LENGTH + (phobos_minute : ℚ) * 60 + (phobos_second : ℚ)
    let phobos_time_fraction := total_phobos_seconds / PHOBOS_SOL_SECONDS
    let phobos_total_days_adjusted :=
      ((phobos_year * PHOBOS_YEAR_DAYS + (phobos_day - 1) : Int) : ℚ) + phobos_time_fraction
    let offset_fraction := (planetary_longitude / PHOBOS_LONG_DIVISOR) / PHOBOS_HOURS_PER_DAY
    let days_elapsed := phobos_total_days_adjusted - offset_fraction
    let elapsed_seconds := days_elapsed * PHOBOS_SOL_SECONDS
    match refPlusSeconds elapsed_seconds with
    | none => .error .overflow
    | some earth_date_utc =>
      match zoneInfo earth_timezone with
      | none => .error (.zoneNotFound earth_timezone)
      | some off => .ok (pyStrftime (astimezone earth_date_utc off))

/-- convert_saturn_to_earth_date (src/app.py:288-312). -/
def convert_saturn_to_earth_date (saturn_year saturn_day : Int) (saturn_time_str : String)
    (planetary_longitude : ℚ) (earth_timezone : String) : Except PyExn String :=
  match parseTime3 saturn_time_str with
  | none => .ok "Error parsing Saturn time: invalid time string"
  | some (saturn_hour, saturn_minute, saturn_second) =>
    let total_saturn_seconds : ℚ :=
      (saturn_hour : ℚ) * SATURN_HOUR_LENGTH + (saturn_minute : ℚ) * 60 + (saturn_second : ℚ)
    let saturn_time_fraction := total_saturn_seconds / SATURN_SOL_SECONDS
    let saturn_total_days_adjusted :=
      ((saturn_year * SATURN_YEAR_DAYS + (saturn_day - 1) : Int) : ℚ) + saturn_time_fraction
    let timezone_offset_in_sats := (planetary_longitude / SATURN_LONG_DIVISOR) / SATURN_HOURS_PER_DAY
    let days_elapsed := saturn_total_days_adjusted - timezone_offset_in_sats
    let elapsed_seconds := days_elapsed * SATURN_SOL_SECONDS
    match refPlusSeconds elapsed_seconds with
    | none => .error .overflow
    | some earth_date_utc =>
      match zoneInfo earth_timezone with
      | none => .error (.zoneNotFound earth_timezone)
      | some off => .ok (pyStrftime (astimezone earth_date_utc off))

/-! ## The dispatcher -/

/-- An aware datetime built by strptime followed by replace(tzinfo=z). -/
def mkAware (f : EarthDT) (off : Int) : PyDateTime :=
  ⟨(((naiveAbs f : Int) - (EPOCH_ABS : Int) - off : Int) : ℚ), off⟩

/-- perform_conversion (src/app.py:45-157), translated branch by branch.
The return value is ok (some s) for a normally returned string, ok none for
the fall-through case in which the Python function returns None, and error e
for an uncaught exception. -/
def perform_conversion (from_planet to_planet date_str time_str
    from_earth_timezone to_earth_timezone : String)
    (from_planetary_longitude to_planetary_longitude : ℚ) :
    Except PyExn (Option String) :=
  if from_planet = to_planet then
    if from_planet = "Earth" then
      match strptimeFields (date_str ++ " " ++ time_str), zoneInfo from_earth_timezone with
      | some f, some off_from =>
        match zoneInfo to_earth_timezone with
        | none => .error (.zoneNotFound to_earth_timezone)
        | some off_to => .ok (some (pyStrftime (astimezone (mkAware f off_from) off_to)))
      | _, _ => .ok (some "Error parsing Earth date/time: invalid input")
    else if from_planet = "Mars" then
      match parseBodyDate date_str with
      | none => .ok (some "Error parsing Mars date: invalid literal")
      | some (mars_year, sol_of_year) =>
        match convert_mars_to_earth_date mars_year sol_of_year time_str
            from_planetary_longitude "UTC" with
        | .error e => .error e
        | .ok intermediate =>
          match pyStrptimeTZ intermediate 0 with
          | none => .ok (some "Error converting Mars to Earth: invalid intermediate")
          | some intermediate_date =>
            .ok (some (convert_earth_to_mars_date intermediate_date "UTC" to_planetary_longitude))
    else if from_planet = "Phobos" then
      match parseBodyDate date_str with
      | none => .ok (some "Error parsing Phobos date: invalid literal")
      | some (phobos_year, phobos_day) =>
        match convert_phobos_to_earth_date phobos_year phobos_day time_str
            from_planetary_longitude "UTC" with
        | .error e => .error e
        | .ok intermediate =>
          match pyStrptimeTZ intermediate 0 with
          | none => .ok (some "Error converting Phobos to Earth: invalid intermediate")
          | some intermediate_date =>
            .ok (some (convert_earth_to_phobos_date intermediate_date "UTC" to_planetary_longitude))
    else if from_planet = "Saturn" then
      match parseBodyDate date_str with
      | none => .ok (some "Error parsing Saturn date: invalid literal")
      | some (saturn_year, saturn_day) =>
        match convert_saturn_to_earth_date saturn_year saturn_day time_str
            from_planetary_longitude "UTC" with
        | .error e => .error e
        | .ok intermediate =>
          match pyStrptimeTZ intermediate 0 with
          | none => .ok (some "Error converting Saturn to Earth: invalid intermediate")
          | some intermediate_date =>
            .ok (some (convert_earth_to_saturn_date intermediate_date "UTC" to_planetary_longitude))
    else .ok none
  else if from_planet = "Earth" ∧ to_planet = "Mars" then
    match strptimeFields (date_str ++ " " ++ time_str), zoneInfo from_earth_timezone with
    | some f, some off_from =>
      .ok (some (convert_earth_to_mars_date (mkAware f off_from) from_earth_timezone
        to_planetary_longitude))
    | _, _ => .ok (some "Error parsing Earth date/time: invalid input")
  else if from_planet = "Earth" ∧ to_planet = "Phobos" then
    match strptimeFields (date_str ++ " " ++ time_str), zoneInfo from_earth_timezone with
    | some f, some off_from =>
      .ok (some (convert_earth_to_phobos_date (mkAware f off_from) from_earth_timezone
        to_planetary_longitude))
    | _, _ => .ok (some "Error parsing Earth date/time: invalid input")
  else if from_planet = "Earth" ∧ to_planet = "Saturn" then
    match strptimeFields (date_str ++ " " ++ time_str), zoneInfo from_earth_timezone with
    | some f, some off_from =>
      .ok (some (convert_earth_to_saturn_date (mkAware f off_from) from_earth_timezone
        to_planetary_longitude))
    | _, _ => .ok (some "Error parsing Earth date/time: invalid input")
  else if from_planet = "Mars" ∧ to_planet = "Earth" then
    match parseBodyDate date_str with
    | none => .ok (some "Error parsing Mars date: invalid literal")
    | some (mars_year, sol_of_year) =>
      match convert_mars_to_earth_date mars_year sol_of_year time_str
          from_planetary_longitude to_earth_timezone with
      | .error e => .error e
      | .ok s => .ok (some s)
  else .ok (some "Conversion not supported.")

/-- Common core of the three Earth-to-body encoders: truncated day count,
then hour, minute, second of the fractional day. -/
def encBase (S H : ℚ) (a : ℚ) : Int × Int × Int × Int :=
  let c := pyTrunc a
  let total := (a - (c : ℚ)) * S
  let hr := ⌊total / H⌋
  let rem := pyFMod total H
  (c, hr, ⌊rem / 60⌋, ⌊pyFMod rem 60⌋)

/-- The adjusted sol count computed by convert_earth_to_mars_date. -/
def marsAdjusted (t L : ℚ) : ℚ :=
  (t + MARS_REF_OFFSET_SECONDS) / SOL_SECONDS + (L / MARS_LONG_DIVISOR) / MARS_HOURS_PER_DAY

/-- The adjusted day count computed by convert_earth_to_phobos_date. -/
def phobosAdjusted (t L : ℚ) : ℚ :=
  t / PHOBOS_SOL_SECONDS + (L / PHOBOS_LONG_DIVISOR) / PHOBOS_HOURS_PER_DAY

/-- The adjusted day count computed by convert_earth_to_saturn_date. -/
def saturnAdjusted (t L : ℚ) : ℚ :=
  t / SATURN_SOL_SECONDS + (L / SATURN_LONG_DIVISOR) / SATURN_HOURS_PER_DAY

/-- Lexicographic comparison of printed (hour, minute, second) values. -/
def lexTime (p q : Int × Int × Int) : Prop :=
  p.1 < q.1 ∨ (p.1 = q.1 ∧ (p.2.1 < q.2.1 ∨ (p.2.1 = q.2.1 ∧ p.2.2 ≤ q.2.2)))

/-- Lexicographic comparison of printed (year, day, hour, minute, second). -/
def lexYD (p q : Int × Int × Int × Int × Int) : Prop :=
  p.1 < q.1 ∨ (p.1 = q.1 ∧ (p.2.1 < q.2.1 ∨ (p.2.1 = q.2.1 ∧ lexTime p.2.2 q.2.2)))

/-- Lexicographic comparison of printed (day, hour, minute, second). -/
def lexDay (p q : Int × Int × Int × Int) : Prop :=
  p.1 < q.1 ∨ (p.1 = q.1 ∧ lexTime p.2 q.2)

instance (p q : Int × Int × Int) : Decidable (lexTime p q) := by
  unfold lexTime
  infer_instance

instance (p q : Int × Int × Int × Int × Int) : Decidable (lexYD p q) := by
  unfold lexYD
  infer_instance

instance (p q : Int × Int × Int × Int) : Decidable (lexDay p q) := by
  unfold lexDay
  infer_instance

/-! ## The claims -/

def unsupportedPairs : List (String × String) :=
  [("Mars", "Phobos"), ("Mars", "Saturn"), ("Phobos", "Earth"), ("Phobos", "Mars"),
   ("Phobos", "Saturn"), ("Saturn", "Earth"), ("Saturn", "Mars"), ("Saturn", "Phobos")]

/-! ## Theorems -/

set_option maxRecDepth 4000 in
theorem mdOK_all_t : ∀ n : Nat, n < 366 → mdOK true n = true := by decide

set_option maxRecDepth 4000 in
theorem mdOK_all_f : ∀ n : Nat, n < 365 → mdOK false n = true := by decide

set_option maxRecDepth 4000 in
theorem mdRevOK_all_t : ∀ i : Nat, i < 384 → mdRevOK true i = true := by decide

set_option maxRecDepth 4000 in
theorem mdRevOK_all_f : ∀ i : Nat, i < 384 → mdRevOK false i = true := by decide

theorem isLeapN_iff (y : Nat) :
    isLeapN y = true ↔ (y % 4 = 0 ∧ (y % 100 ≠ 0 ∨ y % 400 = 0)) := by
  simp [isLeapN, Bool.and_eq_true, Bool.or_eq_true, beq_iff_eq, bne_iff_ne]

theorem daysInMonthTable_getD_le (m : Nat) : daysInMonthTable.getD m 0 ≤ 31 := by
  by_cases h : m < 13
  · interval_cases m <;> decide
  · rw [List.getD_eq_default]
    · omega
    · have : daysInMonthTable.length = 13 := rfl
      omega

theorem dimF_le_31 (L : Bool) (m : Nat) : dimF L m ≤ 31 := by
  unfold dimF
  split
  · omega
  · exact daysInMonthTable_getD_le m

theorem mdOK_spec (L : Bool) (n : Nat) (h : n < 365 + (if L then 1 else 0)) :
    dbmF L (monthDayOf L n).1 + (monthDayOf L n).2 = n + 1 ∧
    1 ≤ (monthDayOf L n).1 ∧ (monthDayOf L n).1 ≤ 12 ∧
    1 ≤ (monthDayOf L n).2 ∧ (monthDayOf L n).2 ≤ dimF L (monthDayOf L n).1 := by
  have hh : mdOK L n = true := by
    cases L
    · exact mdOK_all_f n (by simpa using h)
    · exact mdOK_all_t n (by simpa using h)
  simp only [mdOK, Bool.and_eq_true, beq_iff_eq, Nat.ble_eq] at hh
  exact ⟨hh.1.1.1.1, hh.1.1.1.2, hh.1.1.2, hh.1.2, hh.2⟩

theorem mdRev_spec (L : Bool) (m d : Nat) (hm1 : 1 ≤ m) (hm2 : m ≤ 12)
    (hd1 : 1 ≤ d) (hd2 : d ≤ dimF L m) :
    monthDayOf L (dbmF L m + d - 1) = (m, d) ∧
    dbmF L m + d ≤ 365 + (if L then 1 else 0) := by
  have hd31 : d ≤ 31 := le_trans hd2 (dimF_le_31 L m)
  have key : mdRevOK L ((m - 1) * 32 + (d - 1)) = true := by
    cases L
    · exact mdRevOK_all_f _ (by omega)
    · exact mdRevOK_all_t _ (by omega)
  have hdiv : ((m - 1) * 32 + (d - 1)) / 32 + 1 = m := by omega
  have hmod : ((m - 1) * 32 + (d - 1)) % 32 + 1 = d := by omega
  simp only [mdRevOK, hdiv, hmod] at key
  rw [if_pos] at key
  · simp only [Bool.and_eq_true, beq_iff_eq, Nat.ble_eq] at key
    refine ⟨key.1, ?_⟩
    cases L
    · simpa using key.2
    · simpa using key.2
  · simp only [Bool.and_eq_true, Nat.ble_eq]
    exact ⟨by omega, by omega⟩

theorem daysBeforeYearN_decomp (a b c y : Nat) (ha : a ≤ 3) (hb : b ≤ 24) (hc : c ≤ 3)
    (hy : y = 1 + 100 * a + 4 * b + c) :
    daysBeforeYearN y = 36524 * a + 1461 * b + 365 * c := by
  have hx : y - 1 = 100 * a + 4 * b + c := by omega
  unfold daysBeforeYearN
  rw [hx]
  have h4 : (100 * a + 4 * b + c) / 4 = 25 * a + b := by omega
  have h100 : (100 * a + 4 * b + c) / 100 = a := by omega
  have h400 : (100 * a + 4 * b + c) / 400 = 0 := by omega
  omega

theorem ord2ymdEra_spec (n0 : Nat) (h : n0 < 146097) (y m d : Nat)
    (heq : ord2ymdEra n0 = (y, m, d)) :
    ymd2ord y m d = n0 + 1 ∧ 1 ≤ y ∧ y ≤ 400 ∧ 1 ≤ m ∧ m ≤ 12 ∧
    1 ≤ d ∧ d ≤ daysInMonthN y m := by
  simp only [ord2ymdEra] at heq
  set a := n0 / 36524 with ha
  set r1 := n0 % 36524 with hr1
  set b := r1 / 1461 with hb
  set r2 := r1 % 1461 with hr2
  set c := r2 / 365 with hc
  set n := r2 % 365 with hn
  have hA : a ≤ 4 := by omega
  have hB : b ≤ 24 := by omega
  have hC : c ≤ 4 := by omega
  have hN : n < 365 := by omega
  have hsum : n0 = 36524 * a + 1461 * b + 365 * c + n := by omega
  by_cases hsp : c = 4 ∨ a = 4
  · rw [if_pos hsp] at heq
    obtain ⟨hy, hm, hd⟩ : y = 1 + a * 100 + b * 4 + c - 1 ∧ m = 12 ∧ d = 31 := by
      have := heq
      simp only [Prod.mk.injEq] at this
      exact ⟨this.1.symm, this.2.1.symm, this.2.2.symm⟩
    rcases hsp with hc4 | ha4
    · -- last day of a leap year inside a 4-year cycle
      have hb23 : b ≤ 23 := by omega
      have hr2v : r2 = 1460 := by omega
      have hnv : n = 0 := by omega
      have hyv : y = 100 * a + 4 * b + 4 := by omega
      have haa : a ≤ 3 := by omega
      have hleap : isLeapN y = true := by
        rw [isLeapN_iff]
        omega
      constructor
      · show daysBeforeYearN y + daysBeforeMonthN y m + d = n0 + 1
        have hdbm : daysBeforeMonthN y m = 335 := by
          rw [hm]
          show dbmF (isLeapN y) 12 = 335
          rw [hleap]
          rfl
        rw [hdbm]
        have hdbY : daysBeforeYearN y = 36524 * a + 1461 * b + 365 * 3 :=
          daysBeforeYearN_decomp a b 3 y haa hB (by omega) (by omega)
        omega
      · refine ⟨by omega, by omega, by omega, by omega, by omega, ?_⟩
        rw [hm]
        show d ≤ dimF (isLeapN y) 12
        rw [hleap, hd]
        rfl
    · -- n100 = 4: the single last day of the whole era
      have hn0 : n0 = 146096 := by omega
      subst hn0
      have : y = 400 := by omega
      subst this
      rw [hm, hd]
      refine ⟨?_, by omega, by omega, by omega, by omega, by omega, ?_⟩ <;> decide
  · rw [if_neg hsp] at heq
    have haa : a ≤ 3 := by omega
    have hcc : c ≤ 3 := by omega
    set L0 : Bool := (c == 3 && (b != 24 || a == 3)) with hL0
    obtain ⟨hy, hm, hd⟩ :
        y = 1 + a * 100 + b * 4 + c ∧ m = (monthDayOf L0 n).1 ∧ d = (monthDayOf L0 n).2 := by
      have := heq
      simp only [Prod.mk.injEq] at this
      exact ⟨this.1.symm, this.2.1.symm, this.2.2.symm⟩
    have hmd := mdOK_spec L0 n (by cases L0 <;> simp <;> omega)
    have hleap : isLeapN y = L0 := by
      cases hLv : L0 with
      | false =>
        have : ¬ (c = 3 ∧ (b ≠ 24 ∨ a = 3)) := by
          intro hcon
          rw [hL0] at hLv
          simp only [Bool.and_eq_false_iff, beq_eq_false_iff_ne, ne_eq,
            Bool.or_eq_false_iff, bne_eq_false_iff_eq] at hLv
          rcases hLv with h1 | ⟨h1, h2⟩
          · exact h1 hcon.1
          · rcases hcon.2 with h3 | h3
            · exact h3 h1
            · have : a ≠ 3 := by
                simpa [beq_iff_eq] using h2
              exact this h3
        rw [Bool.eq_false_iff, ne_eq, isLeapN_iff]
        omega
      | true =>
        have : c = 3 ∧ (b ≠ 24 ∨ a = 3) := by
          rw [hL0] at hLv
          simp only [Bool.and_eq_true, beq_iff_eq, Bool.or_eq_true, bne_iff_ne, ne_eq] at hLv
          exact ⟨hLv.1, by tauto⟩
        rw [isLeapN_iff]
        omega
    constructor
    · show daysBeforeYearN y + daysBeforeMonthN y m + d = n0 + 1
      have hdm : daysBeforeMonthN y m = dbmF L0 m := by
        unfold daysBeforeMonthN
        rw [hleap]
      rw [hdm]
      have hkey : dbmF L0 m + d = n + 1 := by rw [hm, hd]; exact hmd.1
      have hdbY : daysBeforeYearN y = 36524 * a + 1461 * b + 365 * c :=
        daysBeforeYearN_decomp a b c y haa hB hcc (by omega)
      omega
    · refine ⟨by omega, by omega, ?_, ?_, ?_, ?_⟩
      · rw [hm]; exact hmd.2.1
      · rw [hm]; exact hmd.2.2.1
      · rw [hd]; exact hmd.2.2.2.1
      · unfold daysInMonthN
        rw [hleap, hm, hd]
        exact hmd.2.2.2.2

theorem daysBeforeYearN_period (q y : Nat) (hy : 1 ≤ y) :
    daysBeforeYearN (400 * q + y) = 146097 * q + daysBeforeYearN y := by
  unfold daysBeforeYearN
  omega

theorem isLeapN_period (q y : Nat) : isLeapN (400 * q + y) = isLeapN y := by
  cases h : isLeapN y with
  | true =>
    rw [isLeapN_iff] at h ⊢
    omega
  | false =>
    rw [Bool.eq_false_iff, ne_eq, isLeapN_iff] at h ⊢
    omega

theorem ymd2ord_period (q y m d : Nat) (hy : 1 ≤ y) :
    ymd2ord (400 * q + y) m d = 146097 * q + ymd2ord y m d := by
  unfold ymd2ord daysBeforeMonthN
  rw [daysBeforeYearN_period q y hy, isLeapN_period]
  omega

/-- Round trip: toordinal of fromordinal is the identity on positive
ordinals, and fromordinal always produces a valid calendar date. -/
theorem ymd2ord_ord2ymd (N : Nat) (h1 : 1 ≤ N) :
    ymd2ord (ord2ymd N).1 (ord2ymd N).2.1 (ord2ymd N).2.2 = N ∧
    1 ≤ (ord2ymd N).1 ∧ 1 ≤ (ord2ymd N).2.1 ∧ (ord2ymd N).2.1 ≤ 12 ∧
    1 ≤ (ord2ymd N).2.2 ∧
    (ord2ymd N).2.2 ≤ daysInMonthN (ord2ymd N).1 (ord2ymd N).2.1 := by
  obtain ⟨y, m, d, hE⟩ : ∃ y m d, ord2ymdEra ((N - 1) % 146097) = (y, m, d) :=
    ⟨_, _, _, rfl⟩
  have hspec := ord2ymdEra_spec ((N - 1) % 146097) (by omega) y m d hE
  have hres : ord2ymd N = (((N - 1) / 146097) * 400 + y, m, d) := by
    simp only [ord2ymd, hE]
  rw [hres]
  have hy1 : 1 ≤ y := hspec.2.1
  constructor
  · show ymd2ord (((N - 1) / 146097) * 400 + y) m d = N
    rw [Nat.mul_comm ((N - 1) / 146097) 400, ymd2ord_period _ _ _ _ hy1, hspec.1]
    omega
  · refine ⟨by omega, hspec.2.2.2.1, hspec.2.2.2.2.1, hspec.2.2.2.2.2.1, ?_⟩
    show d ≤ daysInMonthN (((N - 1) / 146097) * 400 + y) m
    have : daysInMonthN (((N - 1) / 146097) * 400 + y) m = daysInMonthN y m := by
      unfold daysInMonthN
      rw [Nat.mul_comm, isLeapN_period]
    rw [this]
    exact hspec.2.2.2.2.2.2

theorem isLeapN_eq_flag (a b c y : Nat) (ha : a ≤ 3) (hb : b ≤ 24) (hc : c ≤ 3)
    (hy : y = 1 + 100 * a + 4 * b + c) :
    isLeapN y = (c == 3 && (b != 24 || a == 3)) := by
  cases hLv : (c == 3 && (b != 24 || a == 3)) with
  | false =>
    simp only [Bool.and_eq_false_iff, beq_eq_false_iff_ne, ne_eq,
      Bool.or_eq_false_iff, bne_eq_false_iff_eq, beq_eq_false_iff_ne] at hLv
    rw [Bool.eq_false_iff, ne_eq, isLeapN_iff]
    rcases hLv with h1 | ⟨h1, h2⟩
    · omega
    · omega
  | true =>
    simp only [Bool.and_eq_true, beq_iff_eq, Bool.or_eq_true, bne_iff_ne, ne_eq] at hLv
    rw [isLeapN_iff]
    omega

theorem ord2ymdEra_rev (y m d : Nat) (hy1 : 1 ≤ y) (hy2 : y ≤ 400)
    (hm1 : 1 ≤ m) (hm2 : m ≤ 12) (hd1 : 1 ≤ d) (hd2 : d ≤ daysInMonthN y m) :
    1 ≤ ymd2ord y m d ∧ ymd2ord y m d ≤ 146097 ∧
    ord2ymdEra (ymd2ord y m d - 1) = (y, m, d) := by
  set a := (y - 1) / 100 with had
  set b := (y - 1) % 100 / 4 with hbd
  set c := (y - 1) % 4 with hcd
  have ha : a ≤ 3 := by omega
  have hb : b ≤ 24 := by omega
  have hc : c ≤ 3 := by omega
  have hy : y = 1 + 100 * a + 4 * b + c := by omega
  have hdbY : daysBeforeYearN y = 36524 * a + 1461 * b + 365 * c :=
    daysBeforeYearN_decomp a b c y ha hb hc hy
  set L := isLeapN y with hLd
  have hrev := mdRev_spec L m d hm1 hm2 hd1 (by
    have : daysInMonthN y m = dimF L m := rfl
    omega)
  have hflag : isLeapN y = (c == 3 && (b != 24 || a == 3)) :=
    isLeapN_eq_flag a b c y ha hb hc hy
  set w := dbmF L m + d - 1 with hwd
  have hw0 : 1 ≤ dbmF L m + d := by omega
  have hord : ymd2ord y m d = 36524 * a + 1461 * b + 365 * c + w + 1 := by
    show daysBeforeYearN y + daysBeforeMonthN y m + d = _
    have : daysBeforeMonthN y m = dbmF L m := rfl
    omega
  have hwB : w ≤ 364 + (if L = true then 1 else 0) := by
    have h2 := hrev.2
    omega
  have hifle : (if L = true then 1 else 0) ≤ 1 := by split <;> omega
  refine ⟨by omega, by omega, ?_⟩
  set n0 := ymd2ord y m d - 1 with hn0d
  have hn0 : n0 = 36524 * a + 1461 * b + 365 * c + w := by omega
  by_cases hcase : w ≤ 364
  · -- ordinary day: the division cascade recovers (a, b, c, w)
    have e2 : n0 % 36524 = 1461 * b + 365 * c + w := by omega
    have e1 : n0 / 36524 = a := by omega
    have e4 : (1461 * b + 365 * c + w) % 1461 = 365 * c + w := by omega
    have e3 : (1461 * b + 365 * c + w) / 1461 = b := by omega
    have e6 : (365 * c + w) % 365 = w := by omega
    have e5 : (365 * c + w) / 365 = c := by omega
    simp only [ord2ymdEra, e2, e1, e4, e3, e6, e5]
    have hcond : ¬ (c = 4 ∨ a = 4) := by omega
    rw [if_neg hcond]
    rw [← hflag, ← hLd, hrev.1]
    have hyv : 1 + a * 100 + b * 4 + c = y := by omega
    rw [hyv]
  · -- day 366 of a leap year: the n1 = 4 or n100 = 4 branch fires
    have hLt : L = true := by
      by_cases hLv : L = true
      · exact hLv
      · exfalso
        have h0 : (if L = true then 1 else 0) = 0 := if_neg hLv
        omega
    have hif1 : (if L = true then 1 else 0) = 1 := if_pos hLt
    have hw365 : w = 365 := by omega
    have hmd : (m, d) = (12, 31) := by
      have h1 : monthDayOf L w = (m, d) := hrev.1
      rw [hLt, hw365] at h1
      have h2 : monthDayOf true 365 = (12, 31) := by decide
      rw [h1] at h2
      exact h2
    have hflagt : (c == 3 && (b != 24 || a == 3)) = true := by
      rw [← hflag, ← hLd, hLt]
    simp only [Bool.and_eq_true, beq_iff_eq, Bool.or_eq_true, bne_iff_ne, ne_eq] at hflagt
    have hc3 : c = 3 := hflagt.1
    have hm12 : m = 12 := by simpa using congrArg Prod.fst hmd
    have hd31 : d = 31 := by simpa using congrArg Prod.snd hmd
    by_cases hb24 : b ≤ 23
    · have e2 : n0 % 36524 = 1461 * b + 1460 := by omega
      have e1 : n0 / 36524 = a := by omega
      have e4 : (1461 * b + 1460) % 1461 = 1460 := by omega
      have e3 : (1461 * b + 1460) / 1461 = b := by omega
      have e6 : (1460 : Nat) % 365 = 0 := by omega
      have e5 : (1460 : Nat) / 365 = 4 := by omega
      simp only [ord2ymdEra, e2, e1, e4, e3, e6, e5]
      have hcond : True ∨ a = 4 := Or.inl trivial
      rw [if_pos hcond]
      rw [hm12, hd31]
      have hyv : 1 + a * 100 + b * 4 + 4 - 1 = y := by omega
      rw [hyv]
    · -- b = 24 forces a = 3 and the very last day of the era
      have ha3 : a = 3 := by
        rcases hflagt.2 with h24 | h3
        · omega
        · exact h3
      have hn0v : n0 = 146096 := by omega
      rw [hn0v]
      have hconc : ord2ymdEra 146096 = (400, 12, 31) := by decide
      rw [hconc, hm12, hd31]
      have hyv : y = 400 := by omega
      rw [hyv]

/-- Reverse round trip: fromordinal of toordinal is the identity on valid
calendar dates. -/
theorem ord2ymd_ymd2ord (y m d : Nat) (hy1 : 1 ≤ y) (hm1 : 1 ≤ m) (hm2 : m ≤ 12)
    (hd1 : 1 ≤ d) (hd2 : d ≤ daysInMonthN y m) :
    ord2ymd (ymd2ord y m d) = (y, m, d) := by
  set q := (y - 1) / 400 with hqd
  set s := (y - 1) % 400 with hsd
  have hyy : y = 400 * q + (s + 1) := by omega
  have hdim : daysInMonthN y m = daysInMonthN (s + 1) m := by
    unfold daysInMonthN
    rw [hyy, isLeapN_period]
  have hper : ymd2ord y m d = 146097 * q + ymd2ord (s + 1) m d := by
    rw [hyy, ymd2ord_period q (s + 1) m d (by omega)]
  have hera := ord2ymdEra_rev (s + 1) m d (by omega) (by omega) hm1 hm2 hd1 (by omega)
  set E := ymd2ord (s + 1) m d with hEd
  have e1 : (ymd2ord y m d - 1) / 146097 = q := by omega
  have e2 : (ymd2ord y m d - 1) % 146097 = E - 1 := by omega
  simp only [ord2ymd, e1, e2, hera.2.2]
  have hyv : q * 400 + (s + 1) = y := by omega
  rw [hyv]

theorem ymd2ord_big (y m d : Nat) (h : 10000 ≤ y) (hd : 1 ≤ d) :
    3652060 ≤ ymd2ord y m d := by
  unfold ymd2ord daysBeforeYearN
  omega

theorem naiveAbs_fieldsOfAbs (s : Nat) (hs : s < MAX_ABS) :
    naiveAbs (fieldsOfAbs s) = s ∧ validEarthDT (fieldsOfAbs s) := by
  obtain ⟨y, m, d, hE⟩ : ∃ y m d, ord2ymd (s / 86400 + 1) = (y, m, d) := ⟨_, _, _, rfl⟩
  have hrt := ymd2ord_ord2ymd (s / 86400 + 1) (by omega)
  rw [hE] at hrt
  simp only at hrt
  have hyle : y ≤ 9999 := by
    by_contra hcon
    have := ymd2ord_big y m d (by omega) hrt.2.2.2.2.1
    have hsb : s / 86400 + 1 ≤ 3652059 := by
      have : MAX_ABS = 3652059 * 86400 := rfl
      omega
    omega
  have hf : fieldsOfAbs s = ⟨d, m, y, s % 86400 / 3600, s % 86400 % 3600 / 60, s % 86400 % 60⟩ := by
    simp only [fieldsOfAbs, hE]
  rw [hf]
  constructor
  · show (ymd2ord y m d - 1) * 86400 + s % 86400 / 3600 * 3600 +
      s % 86400 % 3600 / 60 * 60 + s % 86400 % 60 = s
    rw [hrt.1]
    omega
  · refine ⟨hrt.2.1, hyle, hrt.2.2.1, hrt.2.2.2.1, hrt.2.2.2.2.1, hrt.2.2.2.2.2, ?_, ?_, ?_⟩
    · show s % 86400 / 3600 ≤ 23
      omega
    · show s % 86400 % 3600 / 60 ≤ 59
      omega
    · show s % 86400 % 60 ≤ 59
      omega

theorem fieldsOfAbs_naiveAbs (f : EarthDT) (hv : validEarthDT f) :
    fieldsOfAbs (naiveAbs f) = f := by
  obtain ⟨fd, fm, fy, fh, fmi, fs⟩ := f
  obtain ⟨hy1, hy2, hm1, hm2, hd1, hd2, hh, hmi, hsec⟩ := hv
  simp only at hy1 hy2 hm1 hm2 hd1 hd2 hh hmi hsec
  have hord1 : 1 ≤ ymd2ord fy fm fd := by
    unfold ymd2ord
    omega
  have e1 : naiveAbs ⟨fd, fm, fy, fh, fmi, fs⟩ / 86400 + 1 = ymd2ord fy fm fd := by
    unfold naiveAbs
    simp only
    omega
  have e2 : naiveAbs ⟨fd, fm, fy, fh, fmi, fs⟩ % 86400 = fh * 3600 + fmi * 60 + fs := by
    unfold naiveAbs
    simp only
    omega
  simp only [fieldsOfAbs, e1, e2, ord2ymd_ymd2ord fy fm fd hy1 hm1 hm2 hd1 hd2]
  have h3 : (fh * 3600 + fmi * 60 + fs) / 3600 = fh := by omega
  have h4 : (fh * 3600 + fmi * 60 + fs) % 3600 / 60 = fmi := by omega
  have h5 : (fh * 3600 + fmi * 60 + fs) % 60 = fs := by omega
  rw [h3, h4, h5]

theorem digitChar_isDigit (x : Nat) (h : x < 10) :
    (Nat.digitChar x).isDigit = true := by
  interval_cases x <;> decide

theorem digitChar_val (x : Nat) (h : x < 10) :
    (Nat.digitChar x).toNat - 48 = x := by
  interval_cases x <;> decide

theorem natDigitsAux_small (fuel n : Nat) (h : n < 10) (hf : 1 ≤ fuel) :
    natDigitsAux fuel n = [Nat.digitChar n] := by
  cases fuel with
  | zero => omega
  | succ f =>
    simp only [natDigitsAux]
    rw [if_pos h]

theorem natDigitsAux_big (fuel n : Nat) (h : 10 ≤ n) (hf : 1 ≤ fuel) :
    natDigitsAux fuel n = natDigitsAux (fuel - 1) (n / 10) ++ [Nat.digitChar (n % 10)] := by
  cases fuel with
  | zero => omega
  | succ f =>
    simp only [natDigitsAux]
    rw [if_neg (by omega)]
    norm_num

theorem natDigits_one (n : Nat) (h : n < 10) : natDigits n = [Nat.digitChar n] :=
  natDigitsAux_small (n + 1) n h (by omega)

theorem natDigits_two (n : Nat) (h1 : 10 ≤ n) (h2 : n < 100) :
    natDigits n = [Nat.digitChar (n / 10), Nat.digitChar (n % 10)] := by
  unfold natDigits
  rw [natDigitsAux_big (n + 1) n h1 (by omega)]
  have e0 : n + 1 - 1 = n := by omega
  rw [e0, natDigitsAux_small n (n / 10) (by omega) (by omega)]
  rfl

theorem natDigits_three (n : Nat) (h1 : 100 ≤ n) (h2 : n < 1000) :
    natDigits n = [Nat.digitChar (n / 100), Nat.digitChar (n / 10 % 10),
      Nat.digitChar (n % 10)] := by
  unfold natDigits
  rw [natDigitsAux_big (n + 1) n (by omega) (by omega)]
  have e0 : n + 1 - 1 = n := by omega
  rw [e0, natDigitsAux_big n (n / 10) (by omega) (by omega)]
  rw [natDigitsAux_small (n - 1) (n / 10 / 10) (by omega) (by omega)]
  have e1 : n / 10 / 10 = n / 100 := by omega
  rw [e1]
  rfl

theorem natDigits_four (n : Nat) (h1 : 1000 ≤ n) (h2 : n < 10000) :
    natDigits n = [Nat.digitChar (n / 1000), Nat.digitChar (n / 100 % 10),
      Nat.digitChar (n / 10 % 10), Nat.digitChar (n % 10)] := by
  unfold natDigits
  rw [natDigitsAux_big (n + 1) n (by omega) (by omega)]
  have e0 : n + 1 - 1 = n := by omega
  rw [e0, natDigitsAux_big n (n / 10) (by omega) (by omega)]
  rw [natDigitsAux_big (n - 1) (n / 10 / 10) (by omega) (by omega)]
  rw [natDigitsAux_small (n - 1 - 1) (n / 10 / 10 / 10) (by omega) (by omega)]
  have e1 : n / 10 / 10 / 10 = n / 1000 := by omega
  have e2 : n / 10 / 10 % 10 = n / 100 % 10 := by omega
  rw [e1, e2]
  rfl

theorem padNat_two_data (n : Nat) (h : n < 100) :
    (padNat 2 n).data = [Nat.digitChar (n / 10), Nat.digitChar (n % 10)] := by
  show List.replicate (2 - (natDigits n).length) '0' ++ natDigits n = _
  by_cases h10 : n < 10
  · rw [natDigits_one n h10]
    have e0 : n / 10 = 0 := by omega
    have e1 : n % 10 = n := by omega
    rw [e0, e1]
    rfl
  · rw [natDigits_two n (by omega) h]
    rfl

theorem padNat_four_data (n : Nat) (h : n < 10000) :
    (padNat 4 n).data = [Nat.digitChar (n / 1000), Nat.digitChar (n / 100 % 10),
      Nat.digitChar (n / 10 % 10), Nat.digitChar (n % 10)] := by
  show List.replicate (4 - (natDigits n).length) '0' ++ natDigits n = _
  by_cases h10 : n < 10
  · rw [natDigits_one n h10]
    have e0 : n / 1000 = 0 := by omega
    have e1 : n / 100 % 10 = 0 := by omega
    have e2 : n / 10 % 10 = 0 := by omega
    have e3 : n % 10 = n := by omega
    rw [e0, e1, e2, e3]
    rfl
  · by_cases h100 : n < 100
    · rw [natDigits_two n (by omega) h100]
      have e0 : n / 1000 = 0 := by omega
      have e1 : n / 100 % 10 = 0 := by omega
      have e2 : n / 10 % 10 = n / 10 := by omega
      rw [e0, e1, e2]
      rfl
    · by_cases h1000 : n < 1000
      · rw [natDigits_three n (by omega) h1000]
        have e0 : n / 1000 = 0 := by omega
        have e1 : n / 100 % 10 = n / 100 := by omega
        rw [e0, e1]
        rfl
      · rw [natDigits_four n (by omega) h]
        rfl

theorem expectChar_cons (c : Char) (r : List Char) : expectChar c (c :: r) = some r := by
  simp [expectChar]

theorem takeDigits_pad2 (n : Nat) (h : n < 100) (rest : List Char) :
    takeDigits 2 ((padNat 2 n).data ++ rest) = some (n, rest) := by
  rw [padNat_two_data n h]
  have hd1 := digitChar_isDigit (n / 10) (by omega)
  have hd2 := digitChar_isDigit (n % 10) (by omega)
  have hv1 := digitChar_val (n / 10) (by omega)
  have hv2 := digitChar_val (n % 10) (by omega)
  show takeDigits 2 (Nat.digitChar (n / 10) :: Nat.digitChar (n % 10) :: rest) = _
  simp only [takeDigits, hd1, if_pos, hv1]
  norm_num
  simp only [takeDigitsAux, hd2, if_pos, hv2]
  have : n / 10 * 10 + n % 10 = n := by omega
  rw [this]

theorem takeDigits_pad4 (n : Nat) (h : n < 10000) (rest : List Char) :
    takeDigits 4 ((padNat 4 n).data ++ rest) = some (n, rest) := by
  rw [padNat_four_data n h]
  have hd1 := digitChar_isDigit (n / 1000) (by omega)
  have hd2 := digitChar_isDigit (n / 100 % 10) (by omega)
  have hd3 := digitChar_isDigit (n / 10 % 10) (by omega)
  have hd4 := digitChar_isDigit (n % 10) (by omega)
  have hv1 := digitChar_val (n / 1000) (by omega)
  have hv2 := digitChar_val (n / 100 % 10) (by omega)
  have hv3 := digitChar_val (n / 10 % 10) (by omega)
  have hv4 := digitChar_val (n % 10) (by omega)
  show takeDigits 4 (Nat.digitChar (n / 1000) :: Nat.digitChar (n / 100 % 10) ::
    Nat.digitChar (n / 10 % 10) :: Nat.digitChar (n % 10) :: rest) = _
  simp only [takeDigits, hd1, if_pos, hv1]
  norm_num
  simp only [takeDigitsAux, hd2, if_pos, hv2, hd3, hv3, hd4, hv4]
  have : ((n / 1000 * 10 + n / 100 % 10) * 10 + n / 10 % 10) * 10 + n % 10 = n := by
    omega
  rw [this]

theorem strptime_render (f : EarthDT) (hv : validEarthDT f) :
    strptimeFields (renderEarthDT f) = some f := by
  obtain ⟨fd, fm, fy, fh, fmi, fs⟩ := f
  obtain ⟨hy1, hy2, hm1, hm2, hd1, hd2, hh, hmi, hsec⟩ := hv
  dsimp only at hy1 hy2 hm1 hm2 hd1 hd2 hh hmi hsec
  have hdim : daysInMonthN fy fm ≤ 31 := dimF_le_31 (isLeapN fy) fm
  have hfd : fd < 100 := by omega
  have hfm : fm < 100 := by omega
  have hfy : fy < 10000 := by omega
  have hfh : fh < 100 := by omega
  have hfmi : fmi < 100 := by omega
  have hfs : fs < 100 := by omega
  have hdata : (renderEarthDT ⟨fd, fm, fy, fh, fmi, fs⟩).data
      = (padNat 2 fd).data ++ ('/' :: ((padNat 2 fm).data ++ ('/' ::
        ((padNat 4 fy).data ++ (' ' :: ((padNat 2 fh).data ++ (':' ::
        ((padNat 2 fmi).data ++ (':' :: ((padNat 2 fs).data ++ ([] : List Char))))))))))) := by
    show (padNat 2 fd ++ "/" ++ padNat 2 fm ++ "/" ++ padNat 4 fy ++ " " ++
      padNat 2 fh ++ ":" ++ padNat 2 fmi ++ ":" ++ padNat 2 fs).data = _
    simp only [String.data_append]
    simp [List.append_assoc, List.singleton_append]
  simp only [strptimeFields, hdata, takeDigits_pad2, takeDigits_pad4,
    expectChar_cons, hfd, hfm, hfy, hfh, hfmi, hfs]
  simp [hy1, hy2, hm1, hm2, hd1, hd2, hh, hmi, hsec]

/-- Printing then reparsing a UTC datetime in range recovers the instant,
truncated to the whole second below. -/
theorem pyStrptimeTZ_pyStrftime (q : ℚ)
    (h1 : 0 ≤ ⌊q⌋ + (EPOCH_ABS : Int)) (h2 : ⌊q⌋ + (EPOCH_ABS : Int) < (MAX_ABS : Int)) :
    pyStrptimeTZ (pyStrftime ⟨q, 0⟩) 0 = some ⟨((⌊q⌋ : Int) : ℚ), 0⟩ := by
  have hq0 : (⌊q + ((0 : Int) : ℚ)⌋ + (EPOCH_ABS : Int)) = ⌊q⌋ + (EPOCH_ABS : Int) := by
    norm_num
  set S : Nat := (⌊q⌋ + (EPOCH_ABS : Int)).toNat with hS
  have hSv : (S : Int) = ⌊q⌋ + (EPOCH_ABS : Int) := by omega
  have hSlt : S < MAX_ABS := by
    have : (MAX_ABS : Int) = ((MAX_ABS : Nat) : Int) := rfl
    omega
  have hfo := naiveAbs_fieldsOfAbs S hSlt
  have hrender : pyStrftime ⟨q, 0⟩ = renderEarthDT (fieldsOfAbs S) := by
    unfold pyStrftime
    simp only [hq0, hS]
  rw [hrender]
  unfold pyStrptimeTZ
  rw [strptime_render (fieldsOfAbs S) hfo.2]
  simp only [Option.map]
  rw [hfo.1]
  have hcast : ((S : Int) - (EPOCH_ABS : Int) - 0 : Int) = ⌊q⌋ := by omega
  rw [hcast]

/-! ## Generic properties of the encode arithmetic -/

theorem pyTrunc_intCast (n : Int) : pyTrunc ((n : Int) : ℚ) = n := by
  unfold pyTrunc
  split
  · exact Int.floor_intCast n
  · exact Int.ceil_intCast n

theorem pyTrunc_eq_floor (a : ℚ) (h : 0 ≤ a) : pyTrunc a = ⌊a⌋ := if_pos h

theorem pyTrunc_mono (a b : ℚ) (h : a ≤ b) : pyTrunc a ≤ pyTrunc b := by
  unfold pyTrunc
  split <;> split
  · exact Int.floor_le_floor h
  · next h1 h2 => exact absurd (le_trans h1 h) h2
  · next h1 h2 =>
    have ha : ⌈a⌉ ≤ 0 := Int.ceil_le.mpr (by exact_mod_cast le_of_not_le h1)
    have hb : 0 ≤ ⌊b⌋ := Int.le_floor.mpr (by exact_mod_cast h2)
    omega
  · exact Int.ceil_le_ceil h

theorem pyFMod_nonneg (x y : ℚ) (hy : 0 < y) : 0 ≤ pyFMod x y := by
  unfold pyFMod
  have h1 : ((⌊x / y⌋ : Int) : ℚ) ≤ x / y := Int.floor_le _
  have h2 : y * ((⌊x / y⌋ : Int) : ℚ) ≤ y * (x / y) :=
    mul_le_mul_of_nonneg_left h1 hy.le
  have h3 : y * (x / y) = x := by field_simp
  linarith

theorem pyFMod_lt (x y : ℚ) (hy : 0 < y) : pyFMod x y < y := by
  unfold pyFMod
  have h1 : x / y < ((⌊x / y⌋ : Int) : ℚ) + 1 := Int.lt_floor_add_one _
  have h2 : y * (x / y) < y * (((⌊x / y⌋ : Int) : ℚ) + 1) :=
    mul_lt_mul_of_pos_left h1 hy
  have h3 : y * (x / y) = x := by field_simp
  nlinarith

theorem mars_fields_encBase (t L : ℚ) :
    convert_earth_to_mars_fields t L =
      (Int.fdiv (encBase SOL_SECONDS MARS_HOUR_LENGTH (marsAdjusted t L)).1 MARS_YEAR_SOLS,
       Int.fmod (encBase SOL_SECONDS MARS_HOUR_LENGTH (marsAdjusted t L)).1 MARS_YEAR_SOLS + 1,
       (encBase SOL_SECONDS MARS_HOUR_LENGTH (marsAdjusted t L)).2.1,
       (encBase SOL_SECONDS MARS_HOUR_LENGTH (marsAdjusted t L)).2.2.1,
       (encBase SOL_SECONDS MARS_HOUR_LENGTH (marsAdjusted t L)).2.2.2) := rfl

theorem phobos_fields_encBase (t L : ℚ) :
    convert_earth_to_phobos_fields t L =
      ((encBase PHOBOS_SOL_SECONDS PHOBOS_HOUR_LENGTH (phobosAdjusted t L)).1 + 1,
       (encBase PHOBOS_SOL_SECONDS PHOBOS_HOUR_LENGTH (phobosAdjusted t L)).2.1,
       (encBase PHOBOS_SOL_SECONDS PHOBOS_HOUR_LENGTH (phobosAdjusted t L)).2.2.1,
       (encBase PHOBOS_SOL_SECONDS PHOBOS_HOUR_LENGTH (phobosAdjusted t L)).2.2.2) := rfl

theorem saturn_fields_encBase (t L : ℚ) :
    convert_earth_to_saturn_fields t L =
      (Int.fdiv (encBase SATURN_SOL_SECONDS SATURN_HOUR_LENGTH (saturnAdjusted t L)).1 SATURN_YEAR_DAYS,
       Int.fmod (encBase SATURN_SOL_SECONDS SATURN_HOUR_LENGTH (saturnAdjusted t L)).1 SATURN_YEAR_DAYS + 1,
       (encBase SATURN_SOL_SECONDS SATURN_HOUR_LENGTH (saturnAdjusted t L)).2.1,
       (encBase SATURN_SOL_SECONDS SATURN_HOUR_LENGTH (saturnAdjusted t L)).2.2.1,
       (encBase SATURN_SOL_SECONDS SATURN_HOUR_LENGTH (saturnAdjusted t L)).2.2.2) := rfl

theorem encBase_le (S H : ℚ) (hS : 0 < S) (hH : 0 < H) (a1 a2 : ℚ) (h : a1 ≤ a2) :
    (encBase S H a1).1 < (encBase S H a2).1 ∨
    ((encBase S H a1).1 = (encBase S H a2).1 ∧
      lexTime (encBase S H a1).2 (encBase S H a2).2) := by
  have hc := pyTrunc_mono a1 a2 h
  rcases lt_or_eq_of_le hc with hlt | heq
  · exact Or.inl hlt
  · refine Or.inr ⟨heq, ?_⟩
    simp only [encBase]
    set T1 := (a1 - (pyTrunc a1 : ℚ)) * S with hT1d
    set T2 := (a2 - (pyTrunc a2 : ℚ)) * S with hT2d
    have hT : T1 ≤ T2 := by
      rw [hT1d, hT2d]
      apply mul_le_mul_of_nonneg_right _ hS.le
      rw [heq]
      linarith
    have hr_le : ⌊T1 / H⌋ ≤ ⌊T2 / H⌋ :=
      Int.floor_le_floor ((div_le_div_iff_of_pos_right hH).mpr hT)
    unfold lexTime
    rcases lt_or_eq_of_le hr_le with h2 | h2
    · exact Or.inl h2
    · refine Or.inr ⟨h2, ?_⟩
      have hrem : pyFMod T1 H ≤ pyFMod T2 H := by
        unfold pyFMod
        rw [← h2]
        have : ((⌊T1 / H⌋ : Int) : ℚ) * H ≤ ((⌊T1 / H⌋ : Int) : ℚ) * H := le_refl _
        linarith
      have hm_le : ⌊pyFMod T1 H / 60⌋ ≤ ⌊pyFMod T2 H / 60⌋ :=
        Int.floor_le_floor ((div_le_div_iff_of_pos_right (by norm_num)).mpr hrem)
      rcases lt_or_eq_of_le hm_le with h3 | h3
      · exact Or.inl h3
      · refine Or.inr ⟨h3, ?_⟩
        apply Int.floor_le_floor
        have e1 : pyFMod (pyFMod T1 H) 60
            = pyFMod T1 H - 60 * ((⌊pyFMod T1 H / 60⌋ : Int) : ℚ) := rfl
        have e2 : pyFMod (pyFMod T2 H) 60
            = pyFMod T2 H - 60 * ((⌊pyFMod T2 H / 60⌋ : Int) : ℚ) := rfl
        rw [e1, e2, ← h3]
        linarith

theorem encBase_canonical (S H : ℚ) (hS : 0 < S) (hH : 0 < H)
    (c h mi sec : Int) (a : ℚ)
    (ha : a = (c : ℚ) + ((h : ℚ) * H + (mi : ℚ) * 60 + (sec : ℚ)) / S)
    (hc : 0 ≤ c) (hh : 0 ≤ h)
    (hX : (h : ℚ) * H + (mi : ℚ) * 60 + (sec : ℚ) < S)
    (hmisec : (mi : ℚ) * 60 + (sec : ℚ) < H)
    (hmi : 0 ≤ mi) (hsec1 : 0 ≤ sec) (hsec2 : sec < 60) :
    encBase S H a = (c, h, mi, sec) := by
  have hsecq1 : (0 : ℚ) ≤ (sec : ℚ) := by exact_mod_cast hsec1
  have hsecq2 : (sec : ℚ) < 60 := by exact_mod_cast hsec2
  have hmiq : (0 : ℚ) ≤ (mi : ℚ) := by exact_mod_cast hmi
  have hhq : (0 : ℚ) ≤ (h : ℚ) := by exact_mod_cast hh
  have hX0 : (0 : ℚ) ≤ (h : ℚ) * H + (mi : ℚ) * 60 + (sec : ℚ) := by positivity
  have hfr0 : (0 : ℚ) ≤ ((h : ℚ) * H + (mi : ℚ) * 60 + (sec : ℚ)) / S := by positivity
  have hfr1 : ((h : ℚ) * H + (mi : ℚ) * 60 + (sec : ℚ)) / S < 1 :=
    (div_lt_one hS).mpr hX
  have ha0 : 0 ≤ a := by
    rw [ha]
    have : (0 : ℚ) ≤ (c : ℚ) := by exact_mod_cast hc
    linarith
  have hfloor : ⌊a⌋ = c := by
    rw [ha, add_comm, Int.floor_add_int]
    rw [Int.floor_eq_zero_iff.mpr ⟨hfr0, hfr1⟩]
    ring
  have htr : pyTrunc a = c := by rw [pyTrunc_eq_floor a ha0, hfloor]
  have hT : (a - (pyTrunc a : ℚ)) * S = (h : ℚ) * H + (mi : ℚ) * 60 + (sec : ℚ) := by
    rw [htr, ha]
    field_simp
    ring
  have hhour : ⌊((h : ℚ) * H + (mi : ℚ) * 60 + (sec : ℚ)) / H⌋ = h := by
    have e : ((h : ℚ) * H + (mi : ℚ) * 60 + (sec : ℚ)) / H
        = ((mi : ℚ) * 60 + (sec : ℚ)) / H + (h : ℚ) := by
      field_simp
      ring
    rw [e, Int.floor_add_int,
      Int.floor_eq_zero_iff.mpr ⟨by positivity, (div_lt_one hH).mpr hmisec⟩]
    ring
  have hrem : pyFMod ((h : ℚ) * H + (mi : ℚ) * 60 + (sec : ℚ)) H
      = (mi : ℚ) * 60 + (sec : ℚ) := by
    unfold pyFMod
    rw [hhour]
    ring
  have hmin : ⌊((mi : ℚ) * 60 + (sec : ℚ)) / 60⌋ = mi := by
    have e : ((mi : ℚ) * 60 + (sec : ℚ)) / 60 = (sec : ℚ) / 60 + (mi : ℚ) := by
      field_simp
      ring
    rw [e, Int.floor_add_int,
      Int.floor_eq_zero_iff.mpr ⟨by positivity, (div_lt_one (by norm_num)).mpr hsecq2⟩]
    ring
  have hrem2 : pyFMod ((mi : ℚ) * 60 + (sec : ℚ)) 60 = (sec : ℚ) := by
    unfold pyFMod
    rw [hmin]
    ring
  show (pyTrunc a, ⌊(a - (pyTrunc a : ℚ)) * S / H⌋,
    ⌊pyFMod ((a - (pyTrunc a : ℚ)) * S) H / 60⌋,
    ⌊pyFMod (pyFMod ((a - (pyTrunc a : ℚ)) * S) H) 60⌋) = (c, h, mi, sec)
  rw [hT, htr, hhour, hrem, hmin, hrem2, Int.floor_intCast]

theorem encBase_fract_bounds (S : ℚ) (hS : 0 < S) (a : ℚ) (ha : 0 ≤ a) :
    0 ≤ (a - (pyTrunc a : ℚ)) * S ∧ (a - (pyTrunc a : ℚ)) * S < S := by
  rw [pyTrunc_eq_floor a ha]
  have h1 : ((⌊a⌋ : Int) : ℚ) ≤ a := Int.floor_le a
  have h2 : a < ((⌊a⌋ : Int) : ℚ) + 1 := Int.lt_floor_add_one a
  constructor
  · apply mul_nonneg _ hS.le
    linarith
  · nlinarith

/-- Printed field ranges of encBase for a nonnegative adjusted value, with
all numeric bounds kept abstract in S and H. -/
theorem encBase_range (S H : ℚ) (hS : 0 < S) (hH : 0 < H) (a : ℚ) (ha : 0 ≤ a) :
    (encBase S H a).1 = ⌊a⌋ ∧
    0 ≤ (encBase S H a).2.1 ∧ ((encBase S H a).2.1 : ℚ) * H ≤ (a - (pyTrunc a : ℚ)) * S ∧
    ((a - (pyTrunc a : ℚ)) * S) < S ∧
    0 ≤ (encBase S H a).2.2.1 ∧ ((encBase S H a).2.2.1 : ℚ) * 60 ≤ pyFMod ((a - (pyTrunc a : ℚ)) * S) H ∧
    pyFMod ((a - (pyTrunc a : ℚ)) * S) H < H ∧
    0 ≤ (encBase S H a).2.2.2 ∧ (encBase S H a).2.2.2 < 60 := by
  obtain ⟨hT0, hT1⟩ := encBase_fract_bounds S hS a ha
  set T := (a - (pyTrunc a : ℚ)) * S with hTd
  have hr0 : 0 ≤ pyFMod T H := pyFMod_nonneg T H hH
  have hr1 : pyFMod T H < H := pyFMod_lt T H hH
  have hs0 : 0 ≤ pyFMod (pyFMod T H) 60 := pyFMod_nonneg _ 60 (by norm_num)
  have hs1 : pyFMod (pyFMod T H) 60 < 60 := pyFMod_lt _ 60 (by norm_num)
  refine ⟨pyTrunc_eq_floor a ha, ?_, ?_, hT1, ?_, ?_, hr1, ?_, ?_⟩
  · show (0 : Int) ≤ ⌊T / H⌋
    apply Int.le_floor.mpr
    push_cast
    positivity
  · show ((⌊T / H⌋ : Int) : ℚ) * H ≤ T
    have := Int.floor_le (T / H)
    calc ((⌊T / H⌋ : Int) : ℚ) * H ≤ T / H * H := by
          apply mul_le_mul_of_nonneg_right this hH.le
      _ = T := by field_simp
  · show (0 : Int) ≤ ⌊pyFMod T H / 60⌋
    apply Int.le_floor.mpr
    push_cast
    positivity
  · show ((⌊pyFMod T H / 60⌋ : Int) : ℚ) * 60 ≤ pyFMod T H
    have := Int.floor_le (pyFMod T H / 60)
    calc ((⌊pyFMod T H / 60⌋ : Int) : ℚ) * 60 ≤ pyFMod T H / 60 * 60 := by
          apply mul_le_mul_of_nonneg_right this (by norm_num)
      _ = pyFMod T H := by field_simp
  · show (0 : Int) ≤ ⌊pyFMod (pyFMod T H) 60⌋
    apply Int.le_floor.mpr
    push_cast
    exact hs0
  · show ⌊pyFMod (pyFMod T H) 60⌋ < 60
    have : ⌊pyFMod (pyFMod T H) 60⌋ < (60 : Int) ↔ pyFMod (pyFMod T H) 60 < ((60 : Int) : ℚ) :=
      Int.floor_lt
    apply this.mpr
    push_cast
    exact hs1

/-! ## Evaluation helpers -/

theorem refPlusSeconds_int (E : Int) (h1 : -(EPOCH_ABS : Int) ≤ E)
    (h2 : E < (MAX_ABS : Int) - (EPOCH_ABS : Int)) :
    refPlusSeconds ((E : Int) : ℚ) = some ⟨((E : Int) : ℚ), 0⟩ := by
  unfold refPlusSeconds
  rw [if_pos]
  constructor
  · have : ((-(EPOCH_ABS : Int) : Int) : ℚ) ≤ ((E : Int) : ℚ) := by exact_mod_cast h1
    push_cast at this ⊢
    linarith
  · have : ((E : Int) : ℚ) < (((MAX_ABS : Int) - (EPOCH_ABS : Int) : Int) : ℚ) := by
      exact_mod_cast h2
    push_cast at this ⊢
    linarith

theorem pyStrftime_int (k off : Int) :
    pyStrftime ⟨(k : ℚ), off⟩ = renderEarthDT (fieldsOfAbs (k + off + EPOCH_ABS).toNat) := by
  unfold pyStrftime
  have h : ⌊((k : ℚ) + (off : ℚ))⌋ = k + off := by
    rw [← Int.cast_add, Int.floor_intCast]
  rw [h]

theorem strptimeFields_valid (s : String) (f : EarthDT)
    (h : strptimeFields s = some f) : validEarthDT f := by
  unfold strptimeFields at h
  repeat' split at h
  any_goals exact Option.noConfusion h
  rename_i hcond
  obtain ⟨h1, h2, h3, h4, h5, h6, h7, h8, h9, h10⟩ := hcond
  injection h with h
  subst h
  exact ⟨h2, h3, h4, h5, h6, h7, h8, h9, h10⟩

/-- Elapsed-seconds evaluation of convert_mars_to_earth_date at UTC for a
parsed time and a longitude whose offset is the integer k in seconds. -/
theorem convert_mars_to_earth_canonical (y s h mi sec k : Int) (t : String) (L : ℚ)
    (hp : parseTime3 t = some (h, mi, sec))
    (hk : (L / MARS_LONG_DIVISOR) / MARS_HOURS_PER_DAY = (k : ℚ) / SOL_SECONDS)
    (hE1 : -(EPOCH_ABS : Int) ≤ (y * 668 + (s - 1)) * 88800 + (h * 3700 + mi * 60 + sec) - 3885 - k)
    (hE2 : (y * 668 + (s - 1)) * 88800 + (h * 3700 + mi * 60 + sec) - 3885 - k
      < (MAX_ABS : Int) - (EPOCH_ABS : Int)) :
    convert_mars_to_earth_date y s t L "UTC" =
      .ok (pyStrftime ⟨(((y * 668 + (s - 1)) * 88800 + (h * 3700 + mi * 60 + sec)
        - 3885 - k : Int) : ℚ), 0⟩) := by
  simp only [convert_mars_to_earth_date, hp]
  have hE : (((y * MARS_YEAR_SOLS + (s - 1) : Int) : ℚ) +
      (((h : Int) : ℚ) * MARS_HOUR_LENGTH + ((mi : Int) : ℚ) * 60 + ((sec : Int) : ℚ)) / SOL_SECONDS -
      MARS_REF_OFFSET_SECONDS / SOL_SECONDS -
      (L / MARS_LONG_DIVISOR) / MARS_HOURS_PER_DAY) * SOL_SECONDS =
      (((y * 668 + (s - 1)) * 88800 + (h * 3700 + mi * 60 + sec) - 3885 - k : Int) : ℚ) := by
    rw [hk]
    simp only [MARS_YEAR_SOLS, MARS_HOUR_LENGTH, SOL_SECONDS, MARS_REF_OFFSET_SECONDS]
    push_cast
    field_simp
    ring
  rw [hE, refPlusSeconds_int _ hE1 hE2]
  have hz : zoneInfo "UTC" = some 0 := by decide
  simp only [hz, astimezone]

/-- Elapsed-seconds evaluation of convert_phobos_to_earth_date at UTC. -/
theorem convert_phobos_to_earth_canonical (y s h mi sec k : Int) (t : String) (L : ℚ)
    (hp : parseTime3 t = some (h, mi, sec))
    (hk : (L / PHOBOS_LONG_DIVISOR) / PHOBOS_HOURS_PER_DAY = (k : ℚ) / PHOBOS_SOL_SECONDS)
    (hE1 : -(EPOCH_ABS : Int) ≤ (y * 1000 + (s - 1)) * 27540 + (h * 3060 + mi * 60 + sec) - k)
    (hE2 : (y * 1000 + (s - 1)) * 27540 + (h * 3060 + mi * 60 + sec) - k
      < (MAX_ABS : Int) - (EPOCH_ABS : Int)) :
    convert_phobos_to_earth_date y s t L "UTC" =
      .ok (pyStrftime ⟨(((y * 1000 + (s - 1)) * 27540 + (h * 3060 + mi * 60 + sec)
        - k : Int) : ℚ), 0⟩) := by
  simp only [convert_phobos_to_earth_date, hp]
  have hE : (((y * PHOBOS_YEAR_DAYS + (s - 1) : Int) : ℚ) +
      (((h : Int) : ℚ) * PHOBOS_HOUR_LENGTH + ((mi : Int) : ℚ) * 60 + ((sec : Int) : ℚ)) / PHOBOS_SOL_SECONDS -
      (L / PHOBOS_LONG_DIVISOR) / PHOBOS_HOURS_PER_DAY) * PHOBOS_SOL_SECONDS =
      (((y * 1000 + (s - 1)) * 27540 + (h * 3060 + mi * 60 + sec) - k : Int) : ℚ) := by
    rw [hk]
    simp only [PHOBOS_YEAR_DAYS, PHOBOS_HOUR_LENGTH, PHOBOS_SOL_SECONDS, PHOBOS_HOURS_PER_DAY]
    push_cast
    field_simp
    ring
  rw [hE, refPlusSeconds_int _ hE1 hE2]
  have hz : zoneInfo "UTC" = some 0 := by decide
  simp only [hz, astimezone]

/-- Elapsed-seconds evaluation of convert_saturn_to_earth_date at UTC. -/
theorem convert_saturn_to_earth_canonical (y s h mi sec k : Int) (t : String) (L : ℚ)
    (hp : parseTime3 t = some (h, mi, sec))
    (hk : (L / SATURN_LONG_DIVISOR) / SATURN_HOURS_PER_DAY = (k : ℚ) / SATURN_SOL_SECONDS)
    (hE1 : -(EPOCH_ABS : Int) ≤ (y * 1000 + (s - 1)) * 37800 + (h * 3780 + mi * 60 + sec) - k)
    (hE2 : (y * 1000 + (s - 1)) * 37800 + (h * 3780 + mi * 60 + sec) - k
      < (MAX_ABS : Int) - (EPOCH_ABS : Int)) :
    convert_saturn_to_earth_date y s t L "UTC" =
      .ok (pyStrftime ⟨(((y * 1000 + (s - 1)) * 37800 + (h * 3780 + mi * 60 + sec)
        - k : Int) : ℚ), 0⟩) := by
  simp only [convert_saturn_to_earth_date, hp]
  have hE : (((y * SATURN_YEAR_DAYS + (s - 1) : Int) : ℚ) +
      (((h : Int) : ℚ) * SATURN_HOUR_LENGTH + ((mi : Int) : ℚ) * 60 + ((sec : Int) : ℚ)) / SATURN_SOL_SECONDS -
      (L / SATURN_LONG_DIVISOR) / SATURN_HOURS_PER_DAY) * SATURN_SOL_SECONDS =
      (((y * 1000 + (s - 1)) * 37800 + (h * 3780 + mi * 60 + sec) - k : Int) : ℚ) := by
    rw [hk]
    simp only [SATURN_YEAR_DAYS, SATURN_HOUR_LENGTH, SATURN_SOL_SECONDS, SATURN_HOURS_PER_DAY]
    push_cast
    field_simp
    ring
  rw [hE, refPlusSeconds_int _ hE1 hE2]
  have hz : zoneInfo "UTC" = some 0 := by decide
  simp only [hz, astimezone]

/-! ## Dispatch reductions -/

theorem perform_mars_mars (d t ftz ttz : String) (L1 L2 : ℚ) (y s : Int)
    (im : String) (idt : PyDateTime) (hp : parseBodyDate d = some (y, s))
    (hconv : convert_mars_to_earth_date y s t L1 "UTC" = .ok im)
    (hstrp : pyStrptimeTZ im 0 = some idt) :
    perform_conversion "Mars" "Mars" d t ftz ttz L1 L2
      = .ok (some (convert_earth_to_mars_date idt "UTC" L2)) := by
  simp only [perform_conversion, hp, hconv, hstrp]
  rfl

theorem perform_phobos_phobos (d t ftz ttz : String) (L1 L2 : ℚ) (y s : Int)
    (im : String) (idt : PyDateTime) (hp : parseBodyDate d = some (y, s))
    (hconv : convert_phobos_to_earth_date y s t L1 "UTC" = .ok im)
    (hstrp : pyStrptimeTZ im 0 = some idt) :
    perform_conversion "Phobos" "Phobos" d t ftz ttz L1 L2
      = .ok (some (convert_earth_to_phobos_date idt "UTC" L2)) := by
  simp only [perform_conversion, hp, hconv, hstrp]
  rfl

theorem perform_saturn_saturn (d t ftz ttz : String) (L1 L2 : ℚ) (y s : Int)
    (im : String) (idt : PyDateTime) (hp : parseBodyDate d = some (y, s))
    (hconv : convert_saturn_to_earth_date y s t L1 "UTC" = .ok im)
    (hstrp : pyStrptimeTZ im 0 = some idt) :
    perform_conversion "Saturn" "Saturn" d t ftz ttz L1 L2
      = .ok (some (convert_earth_to_saturn_date idt "UTC" L2)) := by
  simp only [perform_conversion, hp, hconv, hstrp]
  rfl

theorem perform_mars_earth_ok (d t ftz ttz : String) (L1 L2 : ℚ) (y s : Int)
    (out : String) (hp : parseBodyDate d = some (y, s))
    (hconv : convert_mars_to_earth_date y s t L1 ttz = .ok out) :
    perform_conversion "Mars" "Earth" d t ftz ttz L1 L2 = .ok (some out) := by
  simp only [perform_conversion, hp, hconv]
  rfl

theorem perform_mars_earth_err (d t ftz ttz : String) (L1 L2 : ℚ) (y s : Int)
    (e : PyExn) (hp : parseBodyDate d = some (y, s))
    (hconv : convert_mars_to_earth_date y s t L1 ttz = .error e) :
    perform_conversion "Mars" "Earth" d t ftz ttz L1 L2 = .error e := by
  simp only [perform_conversion, hp, hconv]
  rfl

theorem perform_earth_earth (d t ftz ttz : String) (L1 L2 : ℚ) (f : EarthDT)
    (off_f : Int) (hp : strptimeFields (d ++ " " ++ t) = some f)
    (hzf : zoneInfo ftz = some off_f) :
    perform_conversion "Earth" "Earth" d t ftz ttz L1 L2 =
      match zoneInfo ttz with
      | none => .error (.zoneNotFound ttz)
      | some off_to => .ok (some (pyStrftime (astimezone (mkAware f off_f) off_to))) := by
  simp only [perform_conversion, hp, hzf]
  rfl

theorem perform_earth_body (b : String) (d t ftz ttz : String) (L1 L2 : ℚ) (f : EarthDT)
    (off_f : Int) (hb : b = "Mars" ∨ b = "Phobos" ∨ b = "Saturn")
    (hp : strptimeFields (d ++ " " ++ t) = some f)
    (hzf : zoneInfo ftz = some off_f) :
    perform_conversion "Earth" b d t ftz ttz L1 L2 =
      .ok (some (if b = "Mars" then convert_earth_to_mars_date (mkAware f off_f) ftz L2
        else if b = "Phobos" then convert_earth_to_phobos_date (mkAware f off_f) ftz L2
        else convert_earth_to_saturn_date (mkAware f off_f) ftz L2)) := by
  rcases hb with hb | hb | hb <;> subst hb <;> simp only [perform_conversion, hp, hzf] <;> rfl

/-! ## Per body monotonicity in the instant and in the longitude -/

theorem SOL_SECONDS_pos : (0 : ℚ) < SOL_SECONDS := by norm_num [SOL_SECONDS]

theorem MARS_HOUR_LENGTH_pos : (0 : ℚ) < MARS_HOUR_LENGTH := by
  norm_num [MARS_HOUR_LENGTH, SOL_SECONDS]

theorem PHOBOS_SOL_SECONDS_pos : (0 : ℚ) < PHOBOS_SOL_SECONDS := by
  norm_num [PHOBOS_SOL_SECONDS]

theorem PHOBOS_HOUR_LENGTH_pos : (0 : ℚ) < PHOBOS_HOUR_LENGTH := by
  norm_num [PHOBOS_HOUR_LENGTH, PHOBOS_SOL_SECONDS, PHOBOS_HOURS_PER_DAY]

theorem SATURN_SOL_SECONDS_pos : (0 : ℚ) < SATURN_SOL_SECONDS := by
  norm_num [SATURN_SOL_SECONDS]

theorem SATURN_HOUR_LENGTH_pos : (0 : ℚ) < SATURN_HOUR_LENGTH := by
  norm_num [SATURN_HOUR_LENGTH, SATURN_SOL_SECONDS, SATURN_HOURS_PER_DAY]

theorem marsAdjusted_mono (L t1 t2 : ℚ) (h : t1 ≤ t2) :
    marsAdjusted t1 L ≤ marsAdjusted t2 L := by
  unfold marsAdjusted
  have h1 : (t1 + MARS_REF_OFFSET_SECONDS) / SOL_SECONDS
      ≤ (t2 + MARS_REF_OFFSET_SECONDS) / SOL_SECONDS :=
    (div_le_div_iff_of_pos_right SOL_SECONDS_pos).mpr (by linarith)
  linarith

theorem phobosAdjusted_mono (L t1 t2 : ℚ) (h : t1 ≤ t2) :
    phobosAdjusted t1 L ≤ phobosAdjusted t2 L := by
  unfold phobosAdjusted
  have h1 : t1 / PHOBOS_SOL_SECONDS ≤ t2 / PHOBOS_SOL_SECONDS :=
    (div_le_div_iff_of_pos_right PHOBOS_SOL_SECONDS_pos).mpr h
  linarith

theorem saturnAdjusted_mono (L t1 t2 : ℚ) (h : t1 ≤ t2) :
    saturnAdjusted t1 L ≤ saturnAdjusted t2 L := by
  unfold saturnAdjusted
  have h1 : t1 / SATURN_SOL_SECONDS ≤ t2 / SATURN_SOL_SECONDS :=
    (div_le_div_iff_of_pos_right SATURN_SOL_SECONDS_pos).mpr h
  linarith

theorem marsAdjusted_mono_long (t L1 L2 : ℚ) (h : L1 ≤ L2) :
    marsAdjusted t L1 ≤ marsAdjusted t L2 := by
  unfold marsAdjusted
  have h1 : L1 / MARS_LONG_DIVISOR / MARS_HOURS_PER_DAY
      ≤ L2 / MARS_LONG_DIVISOR / MARS_HOURS_PER_DAY := by
    apply (div_le_div_iff_of_pos_right (by norm_num [MARS_HOURS_PER_DAY])).mpr
    exact (div_le_div_iff_of_pos_right (by norm_num [MARS_LONG_DIVISOR])).mpr h
  linarith

/-- Monotonicity of the printed Mars fields in the adjusted sol count. -/
theorem mars_fields_lex (t1 L1 t2 L2 : ℚ)
    (h : marsAdjusted t1 L1 ≤ marsAdjusted t2 L2) :
    lexYD (convert_earth_to_mars_fields t1 L1) (convert_earth_to_mars_fields t2 L2) := by
  rw [mars_fields_encBase t1 L1, mars_fields_encBase t2 L2]
  rcases encBase_le SOL_SECONDS MARS_HOUR_LENGTH SOL_SECONDS_pos MARS_HOUR_LENGTH_pos
    (marsAdjusted t1 L1) (marsAdjusted t2 L2) h with hlt | ⟨heq, htime⟩
  · set c1 := (encBase SOL_SECONDS MARS_HOUR_LENGTH (marsAdjusted t1 L1)).1 with hc1
    set c2 := (encBase SOL_SECONDS MARS_HOUR_LENGTH (marsAdjusted t2 L2)).1 with hc2
    have e1 : Int.fdiv c1 MARS_YEAR_SOLS = c1 / 668 := Int.fdiv_eq_ediv c1 (by decide)
    have e2 : Int.fdiv c2 MARS_YEAR_SOLS = c2 / 668 := Int.fdiv_eq_ediv c2 (by decide)
    have f1 : Int.fmod c1 MARS_YEAR_SOLS = c1 % 668 := Int.fmod_eq_emod c1 (by decide)
    have f2 : Int.fmod c2 MARS_YEAR_SOLS = c2 % 668 := Int.fmod_eq_emod c2 (by decide)
    have hd : c1 / 668 < c2 / 668 ∨ (c1 / 668 = c2 / 668 ∧ c1 % 668 < c2 % 668) := by
      omega
    unfold lexYD
    rcases hd with hd | ⟨hd1, hd2⟩
    · refine Or.inl ?_
      show Int.fdiv c1 MARS_YEAR_SOLS < Int.fdiv c2 MARS_YEAR_SOLS
      rw [e1, e2]
      exact hd
    · refine Or.inr ⟨?_, Or.inl ?_⟩
      · show Int.fdiv c1 MARS_YEAR_SOLS = Int.fdiv c2 MARS_YEAR_SOLS
        rw [e1, e2, hd1]
      · show Int.fmod c1 MARS_YEAR_SOLS + 1 < Int.fmod c2 MARS_YEAR_SOLS + 1
        rw [f1, f2]
        omega
  · refine Or.inr ⟨?_, Or.inr ⟨?_, ?_⟩⟩
    · show Int.fdiv _ MARS_YEAR_SOLS = Int.fdiv _ MARS_YEAR_SOLS
      rw [heq]
    · show Int.fmod _ MARS_YEAR_SOLS + 1 = Int.fmod _ MARS_YEAR_SOLS + 1
      rw [heq]
    · exact htime

/-- Monotonicity of the printed Saturn fields in the adjusted day count. -/
theorem saturn_fields_lex (t1 L1 t2 L2 : ℚ)
    (h : saturnAdjusted t1 L1 ≤ saturnAdjusted t2 L2) :
    lexYD (convert_earth_to_saturn_fields t1 L1) (convert_earth_to_saturn_fields t2 L2) := by
  rw [saturn_fields_encBase t1 L1, saturn_fields_encBase t2 L2]
  rcases encBase_le SATURN_SOL_SECONDS SATURN_HOUR_LENGTH SATURN_SOL_SECONDS_pos
    SATURN_HOUR_LENGTH_pos (saturnAdjusted t1 L1) (saturnAdjusted t2 L2) h with
    hlt | ⟨heq, htime⟩
  · set c1 := (encBase SATURN_SOL_SECONDS SATURN_HOUR_LENGTH (saturnAdjusted t1 L1)).1 with hc1
    set c2 := (encBase SATURN_SOL_SECONDS SATURN_HOUR_LENGTH (saturnAdjusted t2 L2)).1 with hc2
    have e1 : Int.fdiv c1 SATURN_YEAR_DAYS = c1 / 1000 := Int.fdiv_eq_ediv c1 (by decide)
    have e2 : Int.fdiv c2 SATURN_YEAR_DAYS = c2 / 1000 := Int.fdiv_eq_ediv c2 (by decide)
    have f1 : Int.fmod c1 SATURN_YEAR_DAYS = c1 % 1000 := Int.fmod_eq_emod c1 (by decide)
    have f2 : Int.fmod c2 SATURN_YEAR_DAYS = c2 % 1000 := Int.fmod_eq_emod c2 (by decide)
    have hd : c1 / 1000 < c2 / 1000 ∨ (c1 / 1000 = c2 / 1000 ∧ c1 % 1000 < c2 % 1000) := by
      omega
    unfold lexYD
    rcases hd with hd | ⟨hd1, hd2⟩
    · refine Or.inl ?_
      show Int.fdiv c1 SATURN_YEAR_DAYS < Int.fdiv c2 SATURN_YEAR_DAYS
      rw [e1, e2]
      exact hd
    · refine Or.inr ⟨?_, Or.inl ?_⟩
      · show Int.fdiv c1 SATURN_YEAR_DAYS = Int.fdiv c2 SATURN_YEAR_DAYS
        rw [e1, e2, hd1]
      · show Int.fmod c1 SATURN_YEAR_DAYS + 1 < Int.fmod c2 SATURN_YEAR_DAYS + 1
        rw [f1, f2]
        omega
  · refine Or.inr ⟨?_, Or.inr ⟨?_, ?_⟩⟩
    · show Int.fdiv _ SATURN_YEAR_DAYS = Int.fdiv _ SATURN_YEAR_DAYS
      rw [heq]
    · show Int.fmod _ SATURN_YEAR_DAYS + 1 = Int.fmod _ SATURN_YEAR_DAYS + 1
      rw [heq]
    · exact htime

/-- Monotonicity of the printed Phobos fields in the adjusted day count. -/
theorem phobos_fields_lex (t1 L1 t2 L2 : ℚ)
    (h : phobosAdjusted t1 L1 ≤ phobosAdjusted t2 L2) :
    lexDay (convert_earth_to_phobos_fields t1 L1) (convert_earth_to_phobos_fields t2 L2) := by
  rw [phobos_fields_encBase t1 L1, phobos_fields_encBase t2 L2]
  rcases encBase_le PHOBOS_SOL_SECONDS PHOBOS_HOUR_LENGTH PHOBOS_SOL_SECONDS_pos
    PHOBOS_HOUR_LENGTH_pos (phobosAdjusted t1 L1) (phobosAdjusted t2 L2) h with
    hlt | ⟨heq, htime⟩
  · refine Or.inl ?_
    show (encBase PHOBOS_SOL_SECONDS PHOBOS_HOUR_LENGTH (phobosAdjusted t1 L1)).1 + 1
      < (encBase PHOBOS_SOL_SECONDS PHOBOS_HOUR_LENGTH (phobosAdjusted t2 L2)).1 + 1
    omega
  · refine Or.inr ⟨?_, ?_⟩
    · show (encBase PHOBOS_SOL_SECONDS PHOBOS_HOUR_LENGTH (phobosAdjusted t1 L1)).1 + 1
        = (encBase PHOBOS_SOL_SECONDS PHOBOS_HOUR_LENGTH (phobosAdjusted t2 L2)).1 + 1
      omega
    · exact htime

/-! ## The Mars hour as a function of the adjusted sol count -/

/-- The printed Mars hour equals the floor of 24 times the adjusted sol count
minus 24 times the truncated sol count, because an hour is exactly one
twenty-fourth of a sol. -/
theorem mars_hour_formula (t L : ℚ) :
    (convert_earth_to_mars_fields t L).2.2.1
      = ⌊24 * marsAdjusted t L⌋ - 24 * pyTrunc (marsAdjusted t L) := by
  rw [mars_fields_encBase]
  show ⌊(marsAdjusted t L - (pyTrunc (marsAdjusted t L) : ℚ)) * SOL_SECONDS
    / MARS_HOUR_LENGTH⌋ = ⌊24 * marsAdjusted t L⌋ - 24 * pyTrunc (marsAdjusted t L)
  have e : (marsAdjusted t L - (pyTrunc (marsAdjusted t L) : ℚ)) * SOL_SECONDS
      / MARS_HOUR_LENGTH
      = 24 * marsAdjusted t L - ((24 * pyTrunc (marsAdjusted t L) : Int) : ℚ) := by
    simp only [SOL_SECONDS, MARS_HOUR_LENGTH]
    push_cast
    field_simp
    ring
  rw [e, Int.floor_sub_int]

/-- Moving the longitude 15 degrees East adds exactly one twenty-fourth of a
sol to the adjusted sol count. -/
theorem marsAdjusted_shift (t L : ℚ) :
    marsAdjusted t (L + 15) = marsAdjusted t L + 1 / 24 := by
  unfold marsAdjusted
  simp only [MARS_LONG_DIVISOR, MARS_HOURS_PER_DAY]
  ring

/-! ## Self conversion through the Earth pivot -/

theorem pyStrptimeTZ_int (E : Int) (h1 : -(EPOCH_ABS : Int) ≤ E)
    (h2 : E < (MAX_ABS : Int) - (EPOCH_ABS : Int)) :
    pyStrptimeTZ (pyStrftime ⟨((E : Int) : ℚ), 0⟩) 0 = some ⟨((E : Int) : ℚ), 0⟩ := by
  have hf : ⌊((E : Int) : ℚ)⌋ = E := Int.floor_intCast E
  have h := pyStrptimeTZ_pyStrftime ((E : Int) : ℚ) (by rw [hf]; omega) (by rw [hf]; omega)
  rw [hf] at h
  exact h

/-- Earth to Earth with the same timezone on both sides reprints the parsed
fields unchanged. -/
theorem earth_selfround (d t tz : String) (f : EarthDT) (off : Int)
    (hp : strptimeFields (d ++ " " ++ t) = some f) (hz : zoneInfo tz = some off) :
    perform_conversion "Earth" "Earth" d t tz tz 0 0 = .ok (some (renderEarthDT f)) := by
  rw [perform_earth_earth d t tz tz 0 0 f off hp hz, hz]
  show Except.ok (some (pyStrftime (astimezone (mkAware f off) off)))
    = Except.ok (some (renderEarthDT f))
  rw [show astimezone (mkAware f off) off
    = ⟨(((naiveAbs f : Int) - (EPOCH_ABS : Int) - off : Int) : ℚ), off⟩ from rfl]
  rw [pyStrftime_int ((naiveAbs f : Int) - (EPOCH_ABS : Int) - off) off]
  have hI : ((naiveAbs f : Int) - (EPOCH_ABS : Int) - off + off + (EPOCH_ABS : Int))
      = ((naiveAbs f : Nat) : Int) := by ring
  rw [hI, Int.toNat_natCast, fieldsOfAbs_naiveAbs f (strptimeFields_valid _ f hp)]

/-- Mars to Mars with the same longitude on both sides, for a longitude whose
offset is a whole number k of seconds, reprints the parsed fields whenever
they are canonical and the pivot instant stays representable. -/
theorem mars_selfround (d tstr ftz ttz : String) (y s h mi sec k : Int) (L : ℚ)
    (hd : parseBodyDate d = some (y, s))
    (ht : parseTime3 tstr = some (h, mi, sec))
    (hk : (L / MARS_LONG_DIVISOR) / MARS_HOURS_PER_DAY = (k : ℚ) / SOL_SECONDS)
    (hy : 0 ≤ y) (hs1 : 1 ≤ s) (hs2 : s ≤ 668)
    (hh0 : 0 ≤ h) (hmi0 : 0 ≤ mi) (hsec0 : 0 ≤ sec) (hsec60 : sec < 60)
    (hmisec : (mi : ℚ) * 60 + (sec : ℚ) < MARS_HOUR_LENGTH)
    (hX : (h : ℚ) * MARS_HOUR_LENGTH + (mi : ℚ) * 60 + (sec : ℚ) < SOL_SECONDS)
    (hE1 : -(EPOCH_ABS : Int) ≤ (y * 668 + (s - 1)) * 88800 + (h * 3700 + mi * 60 + sec) - 3885 - k)
    (hE2 : (y * 668 + (s - 1)) * 88800 + (h * 3700 + mi * 60 + sec) - 3885 - k
      < (MAX_ABS : Int) - (EPOCH_ABS : Int)) :
    perform_conversion "Mars" "Mars" d tstr ftz ttz L L
      = .ok (some (renderBodyDate (y, s, h, mi, sec))) := by
  rw [perform_mars_mars d tstr ftz ttz L L y s _ _ hd
    (convert_mars_to_earth_canonical y s h mi sec k tstr L ht hk hE1 hE2)
    (pyStrptimeTZ_int ((y * 668 + (s - 1)) * 88800 + (h * 3700 + mi * 60 + sec) - 3885 - k)
      hE1 hE2)]
  set E : Int := (y * 668 + (s - 1)) * 88800 + (h * 3700 + mi * 60 + sec) - 3885 - k
    with hEdef
  have ha : marsAdjusted ((E : Int) : ℚ) L
      = ((y * 668 + (s - 1) : Int) : ℚ)
        + (((h : Int) : ℚ) * MARS_HOUR_LENGTH + ((mi : Int) : ℚ) * 60 + ((sec : Int) : ℚ))
          / SOL_SECONDS := by
    rw [hEdef]
    unfold marsAdjusted
    rw [hk]
    simp only [MARS_REF_OFFSET_SECONDS, SOL_SECONDS, MARS_HOUR_LENGTH]
    push_cast
    field_simp
    ring
  have henc : encBase SOL_SECONDS MARS_HOUR_LENGTH (marsAdjusted ((E : Int) : ℚ) L)
      = (y * 668 + (s - 1), h, mi, sec) :=
    encBase_canonical SOL_SECONDS MARS_HOUR_LENGTH SOL_SECONDS_pos MARS_HOUR_LENGTH_pos
      (y * 668 + (s - 1)) h mi sec _ ha (by omega) hh0 hX hmisec hmi0 hsec0 hsec60
  have hfield : convert_earth_to_mars_fields ((E : Int) : ℚ) L = (y, s, h, mi, sec) := by
    rw [mars_fields_encBase, henc]
    show (Int.fdiv (y * 668 + (s - 1)) MARS_YEAR_SOLS,
      Int.fmod (y * 668 + (s - 1)) MARS_YEAR_SOLS + 1, h, mi, sec) = (y, s, h, mi, sec)
    have hyv : Int.fdiv (y * 668 + (s - 1)) MARS_YEAR_SOLS = y := by
      rw [Int.fdiv_eq_ediv _ (by decide)]
      show (y * 668 + (s - 1)) / 668 = y
      omega
    have hsv : Int.fmod (y * 668 + (s - 1)) MARS_YEAR_SOLS + 1 = s := by
      rw [Int.fmod_eq_emod _ (by decide)]
      show (y * 668 + (s - 1)) % 668 + 1 = s
      omega
    rw [hyv, hsv]
  rw [show convert_earth_to_mars_date ⟨((E : Int) : ℚ), 0⟩ "UTC" L
    = renderBodyDate (convert_earth_to_mars_fields ((E : Int) : ℚ) L) from rfl, hfield]

/-- Phobos to Phobos with the same integral-offset longitude reprints the
parsed time of day, but the printed day index collapses year and day into
year times 1000 plus day. -/
theorem phobos_selfround (d tstr ftz ttz : String) (y s h mi sec k : Int) (L : ℚ)
    (hd : parseBodyDate d = some (y, s))
    (ht : parseTime3 tstr = some (h, mi, sec))
    (hk : (L / PHOBOS_LONG_DIVISOR) / PHOBOS_HOURS_PER_DAY = (k : ℚ) / PHOBOS_SOL_SECONDS)
    (hy : 0 ≤ y) (hs1 : 1 ≤ s)
    (hh0 : 0 ≤ h) (hmi0 : 0 ≤ mi) (hsec0 : 0 ≤ sec) (hsec60 : sec < 60)
    (hmisec : (mi : ℚ) * 60 + (sec : ℚ) < PHOBOS_HOUR_LENGTH)
    (hX : (h : ℚ) * PHOBOS_HOUR_LENGTH + (mi : ℚ) * 60 + (sec : ℚ) < PHOBOS_SOL_SECONDS)
    (hE1 : -(EPOCH_ABS : Int) ≤ (y * 1000 + (s - 1)) * 27540 + (h * 3060 + mi * 60 + sec) - k)
    (hE2 : (y * 1000 + (s - 1)) * 27540 + (h * 3060 + mi * 60 + sec) - k
      < (MAX_ABS : Int) - (EPOCH_ABS : Int)) :
    perform_conversion "Phobos" "Phobos" d tstr ftz ttz L L
      = .ok (some (renderPhobosDate (y * 1000 + s, h, mi, sec))) := by
  rw [perform_phobos_phobos d tstr ftz ttz L L y s _ _ hd
    (convert_phobos_to_earth_canonical y s h mi sec k tstr L ht hk hE1 hE2)
    (pyStrptimeTZ_int ((y * 1000 + (s - 1)) * 27540 + (h * 3060 + mi * 60 + sec) - k)
      hE1 hE2)]
  set E : Int := (y * 1000 + (s - 1)) * 27540 + (h * 3060 + mi * 60 + sec) - k with hEdef
  have ha : phobosAdjusted ((E : Int) : ℚ) L
      = ((y * 1000 + (s - 1) : Int) : ℚ)
        + (((h : Int) : ℚ) * PHOBOS_HOUR_LENGTH + ((mi : Int) : ℚ) * 60 + ((sec : Int) : ℚ))
          / PHOBOS_SOL_SECONDS := by
    rw [hEdef]
    unfold phobosAdjusted
    rw [hk]
    simp only [PHOBOS_SOL_SECONDS, PHOBOS_HOUR_LENGTH, PHOBOS_HOURS_PER_DAY]
    push_cast
    field_simp
    ring
  have henc : encBase PHOBOS_SOL_SECONDS PHOBOS_HOUR_LENGTH (phobosAdjusted ((E : Int) : ℚ) L)
      = (y * 1000 + (s - 1), h, mi, sec) :=
    encBase_canonical PHOBOS_SOL_SECONDS PHOBOS_HOUR_LENGTH PHOBOS_SOL_SECONDS_pos
      PHOBOS_HOUR_LENGTH_pos (y * 1000 + (s - 1)) h mi sec _ ha (by omega)
      hh0 hX hmisec hmi0 hsec0 hsec60
  have hfield : convert_earth_to_phobos_fields ((E : Int) : ℚ) L
      = (y * 1000 + s, h, mi, sec) := by
    rw [phobos_fields_encBase, henc]
    show (y * 1000 + (s - 1) + 1, h, mi, sec) = (y * 1000 + s, h, mi, sec)
    have hI : y * 1000 + (s - 1) + 1 = y * 1000 + s := by omega
    rw [hI]
  rw [show convert_earth_to_phobos_date ⟨((E : Int) : ℚ), 0⟩ "UTC" L
    = renderPhobosDate (convert_earth_to_phobos_fields ((E : Int) : ℚ) L) from rfl, hfield]

/-- Saturn to Saturn with the same integral-offset longitude reprints the
parsed fields whenever they are canonical and the pivot stays representable. -/
theorem saturn_selfround (d tstr ftz ttz : String) (y s h mi sec k : Int) (L : ℚ)
    (hd : parseBodyDate d = some (y, s))
    (ht : parseTime3 tstr = some (h, mi, sec))
    (hk : (L / SATURN_LONG_DIVISOR) / SATURN_HOURS_PER_DAY = (k : ℚ) / SATURN_SOL_SECONDS)
    (hy : 0 ≤ y) (hs1 : 1 ≤ s) (hs2 : s ≤ 1000)
    (hh0 : 0 ≤ h) (hmi0 : 0 ≤ mi) (hsec0 : 0 ≤ sec) (hsec60 : sec < 60)
    (hmisec : (mi : ℚ) * 60 + (sec : ℚ) < SATURN_HOUR_LENGTH)
    (hX : (h : ℚ) * SATURN_HOUR_LENGTH + (mi : ℚ) * 60 + (sec : ℚ) < SATURN_SOL_SECONDS)
    (hE1 : -(EPOCH_ABS : Int) ≤ (y * 1000 + (s - 1)) * 37800 + (h * 3780 + mi * 60 + sec) - k)
    (hE2 : (y * 1000 + (s - 1)) * 37800 + (h * 3780 + mi * 60 + sec) - k
      < (MAX_ABS : Int) - (EPOCH_ABS : Int)) :
    perform_conversion "Saturn" "Saturn" d tstr ftz ttz L L
      = .ok (some (renderBodyDate (y, s, h, mi, sec))) := by
  rw [perform_saturn_saturn d tstr ftz ttz L L y s _ _ hd
    (convert_saturn_to_earth_canonical y s h mi sec k tstr L ht hk hE1 hE2)
    (pyStrptimeTZ_int ((y * 1000 + (s - 1)) * 37800 + (h * 3780 + mi * 60 + sec) - k)
      hE1 hE2)]
  set E : Int := (y * 1000 + (s - 1)) * 37800 + (h * 3780 + mi * 60 + sec) - k with hEdef
  have ha : saturnAdjusted ((E : Int) : ℚ) L
      = ((y * 1000 + (s - 1) : Int) : ℚ)
        + (((h : Int) : ℚ) * SATURN_HOUR_LENGTH + ((mi : Int) : ℚ) * 60 + ((sec : Int) : ℚ))
          / SATURN_SOL_SECONDS := by
    rw [hEdef]
    unfold saturnAdjusted
    rw [hk]
    simp only [SATURN_SOL_SECONDS, SATURN_HOUR_LENGTH, SATURN_HOURS_PER_DAY]
    push_cast
    field_simp
    ring
  have henc : encBase SATURN_SOL_SECONDS SATURN_HOUR_LENGTH (saturnAdjusted ((E : Int) : ℚ) L)
      = (y * 1000 + (s - 1), h, mi, sec) :=
    encBase_canonical SATURN_SOL_SECONDS SATURN_HOUR_LENGTH SATURN_SOL_SECONDS_pos
      SATURN_HOUR_LENGTH_pos (y * 1000 + (s - 1)) h mi sec _ ha (by omega)
      hh0 hX hmisec hmi0 hsec0 hsec60
  have hfield : convert_earth_to_saturn_fields ((E : Int) : ℚ) L = (y, s, h, mi, sec) := by
    rw [saturn_fields_encBase, henc]
    show (Int.fdiv (y * 1000 + (s - 1)) SATURN_YEAR_DAYS,
      Int.fmod (y * 1000 + (s - 1)) SATURN_YEAR_DAYS + 1, h, mi, sec) = (y, s, h, mi, sec)
    have hyv : Int.fdiv (y * 1000 + (s - 1)) SATURN_YEAR_DAYS = y := by
      rw [Int.fdiv_eq_ediv _ (by decide)]
      show (y * 1000 + (s - 1)) / 1000 = y
      omega
    have hsv : Int.fmod (y * 1000 + (s - 1)) SATURN_YEAR_DAYS + 1 = s := by
      rw [Int.fmod_eq_emod _ (by decide)]
      show (y * 1000 + (s - 1)) % 1000 + 1 = s
      omega
    rw [hyv, hsv]
  rw [show convert_earth_to_saturn_date ⟨((E : Int) : ℚ), 0⟩ "UTC" L
    = renderBodyDate (convert_earth_to_saturn_fields ((E : Int) : ℚ) L) from rfl, hfield]

/-! ## Concrete evaluations used by the claims -/

theorem strp_epoch : pyStrptimeTZ "01/01/2025 00:00:00" 0 = some ⟨((0 : Int) : ℚ), 0⟩ := by
  have hsf : strptimeFields "01/01/2025 00:00:00" = some ⟨1, 1, 2025, 0, 0, 0⟩ := by decide
  simp only [pyStrptimeTZ, hsf, Option.map]
  have hI : ((naiveAbs ⟨1, 1, 2025, 0, 0, 0⟩ : Int) - (EPOCH_ABS : Int) - 0 : Int) = 0 := by
    decide
  rw [hI]

theorem strp_c7 : pyStrptimeTZ "31/12/2024 22:51:08" 0 = some ⟨((-4132 : Int) : ℚ), 0⟩ := by
  have hsf : strptimeFields "31/12/2024 22:51:08" = some ⟨31, 12, 2024, 22, 51, 8⟩ := by
    decide
  simp only [pyStrptimeTZ, hsf, Option.map]
  have hI : ((naiveAbs ⟨31, 12, 2024, 22, 51, 8⟩ : Int) - (EPOCH_ABS : Int) - 0 : Int)
      = -4132 := by decide
  rw [hI]

theorem mars_to_earth_origin :
    convert_mars_to_earth_date 0 1 "01:03:05" 0 "UTC" = .ok "01/01/2025 00:00:00" := by
  have ht : parseTime3 "01:03:05" = some (1, 3, 5) := by decide
  have hk : ((0 : ℚ) / MARS_LONG_DIVISOR) / MARS_HOURS_PER_DAY
      = ((0 : Int) : ℚ) / SOL_SECONDS := by
    norm_num [MARS_LONG_DIVISOR, MARS_HOURS_PER_DAY, SOL_SECONDS]
  rw [convert_mars_to_earth_canonical 0 1 1 3 5 0 "01:03:05" 0 ht hk (by decide) (by decide),
    pyStrftime_int]
  exact congrArg Except.ok (by decide)

theorem mars_to_earth_y2s40 :
    convert_mars_to_earth_date 2 40 "00:00:00" 0 "UTC" = .ok "14/11/2028 03:35:15" := by
  have ht : parseTime3 "00:00:00" = some (0, 0, 0) := by decide
  have hk : ((0 : ℚ) / MARS_LONG_DIVISOR) / MARS_HOURS_PER_DAY
      = ((0 : Int) : ℚ) / SOL_SECONDS := by
    norm_num [MARS_LONG_DIVISOR, MARS_HOURS_PER_DAY, SOL_SECONDS]
  rw [convert_mars_to_earth_canonical 2 40 0 0 0 0 "00:00:00" 0 ht hk (by decide) (by decide),
    pyStrftime_int]
  exact congrArg Except.ok (by decide)

theorem mars_to_earth_y40s2 :
    convert_mars_to_earth_date 40 2 "00:00:00" 0 "UTC" = .ok "12/03/2100 04:55:15" := by
  have ht : parseTime3 "00:00:00" = some (0, 0, 0) := by decide
  have hk : ((0 : ℚ) / MARS_LONG_DIVISOR) / MARS_HOURS_PER_DAY
      = ((0 : Int) : ℚ) / SOL_SECONDS := by
    norm_num [MARS_LONG_DIVISOR, MARS_HOURS_PER_DAY, SOL_SECONDS]
  rw [convert_mars_to_earth_canonical 40 2 0 0 0 0 "00:00:00" 0 ht hk (by decide) (by decide),
    pyStrftime_int]
  exact congrArg Except.ok (by decide)

theorem phobos_to_earth_origin :
    convert_phobos_to_earth_date 0 1 "00:00:00" 0 "UTC" = .ok "01/01/2025 00:00:00" := by
  have ht : parseTime3 "00:00:00" = some (0, 0, 0) := by decide
  have hk : ((0 : ℚ) / PHOBOS_LONG_DIVISOR) / PHOBOS_HOURS_PER_DAY
      = ((0 : Int) : ℚ) / PHOBOS_SOL_SECONDS := by
    norm_num [PHOBOS_LONG_DIVISOR, PHOBOS_HOURS_PER_DAY, PHOBOS_SOL_SECONDS]
  rw [convert_phobos_to_earth_canonical 0 1 0 0 0 0 "00:00:00" 0 ht hk (by decide) (by decide),
    pyStrftime_int]
  exact congrArg Except.ok (by decide)

theorem saturn_to_earth_origin :
    convert_saturn_to_earth_date 0 1 "00:00:00" 0 "UTC" = .ok "01/01/2025 00:00:00" := by
  have ht : parseTime3 "00:00:00" = some (0, 0, 0) := by decide
  have hk : ((0 : ℚ) / SATURN_LONG_DIVISOR) / SATURN_HOURS_PER_DAY
      = ((0 : Int) : ℚ) / SATURN_SOL_SECONDS := by
    norm_num [SATURN_LONG_DIVISOR, SATURN_HOURS_PER_DAY, SATURN_SOL_SECONDS]
  rw [convert_saturn_to_earth_canonical 0 1 0 0 0 0 "00:00:00" 0 ht hk (by decide) (by decide),
    pyStrftime_int]
  exact congrArg Except.ok (by decide)

/-- The destination zone of a Mars to Earth conversion is looked up with no
try block around it: an unknown name escapes as an exception. -/
theorem mars_to_earth_badzone :
    convert_mars_to_earth_date 0 1 "00:00:00" 0 "Mars/Olympus"
      = .error (.zoneNotFound "Mars/Olympus") := by
  have ht : parseTime3 "00:00:00" = some (0, 0, 0) := by decide
  simp only [convert_mars_to_earth_date, ht]
  have hE : (((0 * MARS_YEAR_SOLS + (1 - 1) : Int) : ℚ) +
      (((0 : Int) : ℚ) * MARS_HOUR_LENGTH + ((0 : Int) : ℚ) * 60 + ((0 : Int) : ℚ)) / SOL_SECONDS -
      MARS_REF_OFFSET_SECONDS / SOL_SECONDS -
      ((0 : ℚ) / MARS_LONG_DIVISOR) / MARS_HOURS_PER_DAY) * SOL_SECONDS
      = ((-3885 : Int) : ℚ) := by
    simp only [MARS_YEAR_SOLS, MARS_HOUR_LENGTH, SOL_SECONDS, MARS_REF_OFFSET_SECONDS,
      MARS_LONG_DIVISOR, MARS_HOURS_PER_DAY]
    push_cast
    norm_num
  rw [hE, refPlusSeconds_int (-3885) (by decide) (by decide)]
  have hz : zoneInfo "Mars/Olympus" = none := by decide
  simp only [hz]

theorem mars_to_earth_c7 :
    convert_mars_to_earth_date 0 1 "00:00:00" 1 "UTC" = .ok "31/12/2024 22:51:08" := by
  have ht : parseTime3 "00:00:00" = some (0, 0, 0) := by decide
  simp only [convert_mars_to_earth_date, ht]
  have hE : (((0 * MARS_YEAR_SOLS + (1 - 1) : Int) : ℚ) +
      (((0 : Int) : ℚ) * MARS_HOUR_LENGTH + ((0 : Int) : ℚ) * 60 + ((0 : Int) : ℚ)) / SOL_SECONDS -
      MARS_REF_OFFSET_SECONDS / SOL_SECONDS -
      ((1 : ℚ) / MARS_LONG_DIVISOR) / MARS_HOURS_PER_DAY) * SOL_SECONDS
      = (-12395/3 : ℚ) := by
    simp only [MARS_YEAR_SOLS, MARS_HOUR_LENGTH, SOL_SECONDS, MARS_REF_OFFSET_SECONDS,
      MARS_LONG_DIVISOR, MARS_HOURS_PER_DAY]
    push_cast
    norm_num
  rw [hE]
  have hcond : -((EPOCH_ABS : ℚ)) ≤ (-12395/3 : ℚ) ∧
      (-12395/3 : ℚ) < (MAX_ABS : ℚ) - (EPOCH_ABS : ℚ) := by
    constructor <;> norm_num [EPOCH_ABS, MAX_ABS]
  have hrps : refPlusSeconds (-12395/3 : ℚ) = some ⟨(-12395/3 : ℚ), 0⟩ := by
    unfold refPlusSeconds
    rw [if_pos hcond]
  rw [hrps]
  have hz : zoneInfo "UTC" = some 0 := by decide
  simp only [hz, astimezone]
  have hps : pyStrftime ⟨(-12395/3 : ℚ), 0⟩ = "31/12/2024 22:51:08" := by
    simp only [pyStrftime]
    have hfl : ⌊(-12395/3 : ℚ) + ((0 : Int) : ℚ)⌋ = -4132 := by norm_num
    rw [hfl]
    decide
  rw [hps]

theorem mkAware_epoch : mkAware ⟨1, 1, 2025, 0, 0, 0⟩ 0 = ⟨((0 : Int) : ℚ), 0⟩ := by
  simp only [mkAware]
  have hI : ((naiveAbs ⟨1, 1, 2025, 0, 0, 0⟩ : Int) - (EPOCH_ABS : Int) - 0 : Int) = 0 := by
    decide
  rw [hI]

theorem enc_mars_origin :
    convert_earth_to_mars_date ⟨((0 : Int) : ℚ), 0⟩ "UTC" 0 = "0/01 01:03:05" := by
  have ha : marsAdjusted ((0 : Int) : ℚ) 0
      = ((0 : Int) : ℚ) + (((1 : Int) : ℚ) * MARS_HOUR_LENGTH + ((3 : Int) : ℚ) * 60
        + ((5 : Int) : ℚ)) / SOL_SECONDS := by
    unfold marsAdjusted
    simp only [MARS_REF_OFFSET_SECONDS, SOL_SECONDS, MARS_HOUR_LENGTH,
      MARS_LONG_DIVISOR, MARS_HOURS_PER_DAY]
    push_cast
    norm_num
  have henc : encBase SOL_SECONDS MARS_HOUR_LENGTH (marsAdjusted ((0 : Int) : ℚ) 0)
      = (0, 1, 3, 5) :=
    encBase_canonical SOL_SECONDS MARS_HOUR_LENGTH SOL_SECONDS_pos MARS_HOUR_LENGTH_pos
      0 1 3 5 _ ha (by norm_num) (by norm_num)
      (by norm_num [MARS_HOUR_LENGTH, SOL_SECONDS]) (by norm_num [MARS_HOUR_LENGTH, SOL_SECONDS])
      (by norm_num) (by norm_num) (by norm_num)
  have hfield : convert_earth_to_mars_fields ((0 : Int) : ℚ) 0 = (0, 1, 1, 3, 5) := by
    rw [mars_fields_encBase, henc]
    decide
  rw [show convert_earth_to_mars_date ⟨((0 : Int) : ℚ), 0⟩ "UTC" 0
    = renderBodyDate (convert_earth_to_mars_fields ((0 : Int) : ℚ) 0) from rfl, hfield]
  decide

theorem enc_phobos_origin :
    convert_earth_to_phobos_date ⟨((0 : Int) : ℚ), 0⟩ "UTC" 0 = "Phobos Day 01 00:00:00" := by
  have ha : phobosAdjusted ((0 : Int) : ℚ) 0
      = ((0 : Int) : ℚ) + (((0 : Int) : ℚ) * PHOBOS_HOUR_LENGTH + ((0 : Int) : ℚ) * 60
        + ((0 : Int) : ℚ)) / PHOBOS_SOL_SECONDS := by
    unfold phobosAdjusted
    simp only [PHOBOS_SOL_SECONDS, PHOBOS_HOUR_LENGTH, PHOBOS_LONG_DIVISOR,
      PHOBOS_HOURS_PER_DAY]
    push_cast
    norm_num
  have henc : encBase PHOBOS_SOL_SECONDS PHOBOS_HOUR_LENGTH (phobosAdjusted ((0 : Int) : ℚ) 0)
      = (0, 0, 0, 0) :=
    encBase_canonical PHOBOS_SOL_SECONDS PHOBOS_HOUR_LENGTH PHOBOS_SOL_SECONDS_pos
      PHOBOS_HOUR_LENGTH_pos 0 0 0 0 _ ha (by norm_num) (by norm_num)
      (by norm_num [PHOBOS_HOUR_LENGTH, PHOBOS_SOL_SECONDS, PHOBOS_HOURS_PER_DAY])
      (by norm_num [PHOBOS_HOUR_LENGTH, PHOBOS_SOL_SECONDS, PHOBOS_HOURS_PER_DAY])
      (by norm_num) (by norm_num) (by norm_num)
  have hfield : convert_earth_to_phobos_fields ((0 : Int) : ℚ) 0 = (1, 0, 0, 0) := by
    rw [phobos_fields_encBase, henc]
    decide
  rw [show convert_earth_to_phobos_date ⟨((0 : Int) : ℚ), 0⟩ "UTC" 0
    = renderPhobosDate (convert_earth_to_phobos_fields ((0 : Int) : ℚ) 0) from rfl, hfield]
  decide

theorem enc_saturn_origin :
    convert_earth_to_saturn_date ⟨((0 : Int) : ℚ), 0⟩ "UTC" 0 = "0/01 00:00:00" := by
  have ha : saturnAdjusted ((0 : Int) : ℚ) 0
      = ((0 : Int) : ℚ) + (((0 : Int) : ℚ) * SATURN_HOUR_LENGTH + ((0 : Int) : ℚ) * 60
        + ((0 : Int) : ℚ)) / SATURN_SOL_SECONDS := by
    unfold saturnAdjusted
    simp only [SATURN_SOL_SECONDS, SATURN_HOUR_LENGTH, SATURN_LONG_DIVISOR,
      SATURN_HOURS_PER_DAY]
    push_cast
    norm_num
  have henc : encBase SATURN_SOL_SECONDS SATURN_HOUR_LENGTH (saturnAdjusted ((0 : Int) : ℚ) 0)
      = (0, 0, 0, 0) :=
    encBase_canonical SATURN_SOL_SECONDS SATURN_HOUR_LENGTH SATURN_SOL_SECONDS_pos
      SATURN_HOUR_LENGTH_pos 0 0 0 0 _ ha (by norm_num) (by norm_num)
      (by norm_num [SATURN_HOUR_LENGTH, SATURN_SOL_SECONDS, SATURN_HOURS_PER_DAY])
      (by norm_num [SATURN_HOUR_LENGTH, SATURN_SOL_SECONDS, SATURN_HOURS_PER_DAY])
      (by norm_num) (by norm_num) (by norm_num)
  have hfield : convert_earth_to_saturn_fields ((0 : Int) : ℚ) 0 = (0, 1, 0, 0, 0) := by
    rw [saturn_fields_encBase, henc]
    decide
  rw [show convert_earth_to_saturn_date ⟨((0 : Int) : ℚ), 0⟩ "UTC" 0
    = renderBodyDate (convert_earth_to_saturn_fields ((0 : Int) : ℚ) 0) from rfl, hfield]
  decide

/-- Re-encoding the reparsed pivot instant of the C7 counterexample: the
adjusted sol count is a tiny negative number, int() truncates it to zero, and
the negative fractional sol yields hour -1 and minute 61. -/
theorem enc_mars_c7 :
    convert_earth_to_mars_date ⟨((-4132 : Int) : ℚ), 0⟩ "UTC" 1 = "0/01 -1:61:39" := by
  have ha : marsAdjusted ((-4132 : Int) : ℚ) 1 = (-1/266400 : ℚ) := by
    unfold marsAdjusted
    simp only [MARS_REF_OFFSET_SECONDS, SOL_SECONDS, MARS_LONG_DIVISOR, MARS_HOURS_PER_DAY]
    push_cast
    norm_num
  have htr : pyTrunc (-1/266400 : ℚ) = 0 := by
    unfold pyTrunc
    rw [if_neg (by norm_num)]
    norm_num
  have hT : ((-1/266400 : ℚ) - ((0 : Int) : ℚ)) * SOL_SECONDS = (-1/3 : ℚ) := by
    norm_num [SOL_SECONDS]
  have hh : ⌊(-1/3 : ℚ) / MARS_HOUR_LENGTH⌋ = -1 := by
    norm_num [MARS_HOUR_LENGTH, SOL_SECONDS]
  have hrem : pyFMod (-1/3 : ℚ) MARS_HOUR_LENGTH = (11099/3 : ℚ) := by
    unfold pyFMod
    norm_num [MARS_HOUR_LENGTH, SOL_SECONDS]
  have hmi : ⌊(11099/3 : ℚ) / 60⌋ = 61 := by norm_num
  have hrem2 : pyFMod (11099/3 : ℚ) 60 = (119/3 : ℚ) := by
    unfold pyFMod
    norm_num
  have hsec : ⌊(119/3 : ℚ)⌋ = 39 := by norm_num
  have henc : encBase SOL_SECONDS MARS_HOUR_LENGTH (marsAdjusted ((-4132 : Int) : ℚ) 1)
      = (0, -1, 61, 39) := by
    rw [ha]
    show (pyTrunc (-1/266400 : ℚ),
      ⌊((-1/266400 : ℚ) - (pyTrunc (-1/266400 : ℚ) : ℚ)) * SOL_SECONDS / MARS_HOUR_LENGTH⌋,
      ⌊pyFMod (((-1/266400 : ℚ) - (pyTrunc (-1/266400 : ℚ) : ℚ)) * SOL_SECONDS)
        MARS_HOUR_LENGTH / 60⌋,
      ⌊pyFMod (pyFMod (((-1/266400 : ℚ) - (pyTrunc (-1/266400 : ℚ) : ℚ)) * SOL_SECONDS)
        MARS_HOUR_LENGTH) 60⌋) = (0, -1, 61, 39)
    rw [htr, hT, hh, hrem, hmi, hrem2, hsec]
  have hfield : convert_earth_to_mars_fields ((-4132 : Int) : ℚ) 1 = (0, 1, -1, 61, 39) := by
    rw [mars_fields_encBase, henc]
    decide
  rw [show convert_earth_to_mars_date ⟨((-4132 : Int) : ℚ), 0⟩ "UTC" 1
    = renderBodyDate (convert_earth_to_mars_fields ((-4132 : Int) : ℚ) 1) from rfl, hfield]
  decide

/-- Claim C1, corrected.  The dispatcher does not support every ordered pair
of registered bodies: only same-body pairs, Earth to each non-Earth body, and
Mars to Earth are implemented.  Every other pair, for all inputs, returns the
string Conversion not supported; each of the eight implemented pairs succeeds
on a concrete well-formed input, decoding and encoding through the shared
Earth instant. -/
theorem C1_dispatch_surface :
    (∀ p : String × String, p ∈ unsupportedPairs → ∀ (d t ftz ttz : String) (L1 L2 : ℚ),
      perform_conversion p.1 p.2 d t ftz ttz L1 L2
        = .ok (some "Conversion not supported.")) ∧
    perform_conversion "Earth" "Earth" "01/01/2025" "00:00:00" "UTC" "UTC" 0 0
      = .ok (some "01/01/2025 00:00:00") ∧
    perform_conversion "Earth" "Mars" "01/01/2025" "00:00:00" "UTC" "UTC" 0 0
      = .ok (some "0/01 01:03:05") ∧
    perform_conversion "Earth" "Phobos" "01/01/2025" "00:00:00" "UTC" "UTC" 0 0
      = .ok (some "Phobos Day 01 00:00:00") ∧
    perform_conversion "Earth" "Saturn" "01/01/2025" "00:00:00" "UTC" "UTC" 0 0
      = .ok (some "0/01 00:00:00") ∧
    perform_conversion "Mars" "Earth" "0/1" "01:03:05" "UTC" "UTC" 0 0
      = .ok (some "01/01/2025 00:00:00") ∧
    perform_conversion "Mars" "Mars" "0/1" "01:03:05" "UTC" "UTC" 0 0
      = .ok (some "0/01 01:03:05") ∧
    perform_conversion "Phobos" "Phobos" "0/1" "00:00:00" "UTC" "UTC" 0 0
      = .ok (some "Phobos Day 01 00:00:00") ∧
    perform_conversion "Saturn" "Saturn" "0/1" "00:00:00" "UTC" "UTC" 0 0
      = .ok (some "0/01 00:00:00") := by
  refine ⟨?_, ?_, ?_, ?_, ?_, ?_, ?_, ?_, ?_⟩
  · intro p hp d t ftz ttz L1 L2
    fin_cases hp <;> rfl
  · rw [earth_selfround "01/01/2025" "00:00:00" "UTC" ⟨1, 1, 2025, 0, 0, 0⟩ 0
      (by decide) (by decide)]
    exact congrArg Except.ok (by decide)
  · rw [perform_earth_body "Mars" "01/01/2025" "00:00:00" "UTC" "UTC" 0 0
      ⟨1, 1, 2025, 0, 0, 0⟩ 0 (Or.inl rfl) (by decide) (by decide),
      if_pos rfl, mkAware_epoch, enc_mars_origin]
  · rw [perform_earth_body "Phobos" "01/01/2025" "00:00:00" "UTC" "UTC" 0 0
      ⟨1, 1, 2025, 0, 0, 0⟩ 0 (Or.inr (Or.inl rfl)) (by decide) (by decide),
      if_neg (by decide), if_pos rfl, mkAware_epoch, enc_phobos_origin]
  · rw [perform_earth_body "Saturn" "01/01/2025" "00:00:00" "UTC" "UTC" 0 0
      ⟨1, 1, 2025, 0, 0, 0⟩ 0 (Or.inr (Or.inr rfl)) (by decide) (by decide),
      if_neg (by decide), if_neg (by decide), mkAware_epoch, enc_saturn_origin]
  · exact perform_mars_earth_ok "0/1" "01:03:05" "UTC" "UTC" 0 0 0 1 _ (by decide)
      mars_to_earth_origin
  · rw [perform_mars_mars "0/1" "01:03:05" "UTC" "UTC" 0 0 0 1 _ _ (by decide)
      mars_to_earth_origin strp_epoch, enc_mars_origin]
  · rw [perform_phobos_phobos "0/1" "00:00:00" "UTC" "UTC" 0 0 0 1 _ _ (by decide)
      phobos_to_earth_origin strp_epoch, enc_phobos_origin]
  · rw [perform_saturn_saturn "0/1" "00:00:00" "UTC" "UTC" 0 0 0 1 _ _ (by decide)
      saturn_to_earth_origin strp_epoch, enc_saturn_origin]

/-- Counterexample to claim C1 as stated: the cross-body pair Phobos to Earth
is rejected with Conversion not supported instead of returning a formatted
destination timestamp. -/
theorem C1_cross_rejected :
    perform_conversion "Phobos" "Earth" "0/1" "00:00:00" "UTC" "UTC" 0 0
      = .ok (some "Conversion not supported.") := rfl

/-- Instance of C1 at a concrete unsupported pair. -/
theorem C1_dispatch_surface_inst :
    perform_conversion "Mars" "Phobos" "0/1" "00:00:00" "UTC" "UTC" 0 0
      = .ok (some "Conversion not supported.") :=
  C1_dispatch_surface.1 ("Mars", "Phobos") (by decide) "0/1" "00:00:00" "UTC" "UTC" 0 0

/-- Claim C2, code bug evidence.  A Mars to Earth conversion whose destination
timezone is not a recognised zone raises ZoneInfoNotFoundError out of
convert_mars_to_earth_date: no handler catches the lookup, so an exception
escapes to the caller instead of an error value. -/
theorem C2_uncaught_zone_lookup :
    perform_conversion "Mars" "Earth" "0/1" "00:00:00" "UTC" "Mars/Olympus" 0 0
      = .error (.zoneNotFound "Mars/Olympus") :=
  perform_mars_earth_err "0/1" "00:00:00" "UTC" "Mars/Olympus" 0 0 0 1 _ (by decide)
    mars_to_earth_badzone

/-- Claim C3, corrected.  The date string of a non-Earth source is split at
the slash into FIRST the local year index and SECOND the day index: the first
parsed field is multiplied by the 668-sol year length in the decoded elapsed
seconds, the opposite of the order the spec states. -/
theorem C3_first_field_is_year (d t ftz : String) (L1 L2 : ℚ) (y s h mi sec k : Int)
    (hd : parseBodyDate d = some (y, s))
    (ht : parseTime3 t = some (h, mi, sec))
    (hk : (L1 / MARS_LONG_DIVISOR) / MARS_HOURS_PER_DAY = (k : ℚ) / SOL_SECONDS)
    (hE1 : -(EPOCH_ABS : Int)
      ≤ (y * 668 + (s - 1)) * 88800 + (h * 3700 + mi * 60 + sec) - 3885 - k)
    (hE2 : (y * 668 + (s - 1)) * 88800 + (h * 3700 + mi * 60 + sec) - 3885 - k
      < (MAX_ABS : Int) - (EPOCH_ABS : Int)) :
    perform_conversion "Mars" "Earth" d t ftz "UTC" L1 L2
      = .ok (some (pyStrftime ⟨(((y * 668 + (s - 1)) * 88800 + (h * 3700 + mi * 60 + sec)
        - 3885 - k : Int) : ℚ), 0⟩)) :=
  perform_mars_earth_ok d t ftz "UTC" L1 L2 y s _ hd
    (convert_mars_to_earth_canonical y s h mi sec k t L1 ht hk hE1 hE2)

/-- Counterexample to claim C3 as stated: for the date string 2/40 the
program reads year 2, sol 40 and lands in 2028; under the spec order, sol 2
of year 40, the same input would land in 2100. -/
theorem C3_order_swapped :
    perform_conversion "Mars" "Earth" "2/40" "00:00:00" "UTC" "UTC" 0 0
      = .ok (some "14/11/2028 03:35:15") ∧
    convert_mars_to_earth_date 40 2 "00:00:00" 0 "UTC" = .ok "12/03/2100 04:55:15" ∧
    ("14/11/2028 03:35:15" : String) ≠ "12/03/2100 04:55:15" := by
  refine ⟨?_, mars_to_earth_y40s2, by decide⟩
  exact perform_mars_earth_ok "2/40" "00:00:00" "UTC" "UTC" 0 0 2 40 _ (by decide)
    mars_to_earth_y2s40

/-- Instance of C3 at the concrete date 2/40. -/
theorem C3_first_field_is_year_inst :
    perform_conversion "Mars" "Earth" "2/40" "00:00:00" "UTC" "UTC" 0 0
      = .ok (some (pyStrftime ⟨(((2 * 668 + (40 - 1)) * 88800 + (0 * 3700 + 0 * 60 + 0)
        - 3885 - 0 : Int) : ℚ), 0⟩)) :=
  C3_first_field_is_year "2/40" "00:00:00" "UTC" 0 0 2 40 0 0 0 0 (by decide) (by decide)
    (by norm_num [MARS_LONG_DIVISOR, MARS_HOURS_PER_DAY, SOL_SECONDS]) (by decide) (by decide)

/-- Claim C4, corrected.  day_count is int(), truncation toward zero, not the
floor; for a negative non-integral adjusted total this differs from the floor
and the printed hour falls outside its range.  The range guarantees hold when
the adjusted total is nonnegative (where int() and floor agree). -/
theorem C4_trunc_ranges (t L : ℚ) (hm : 0 ≤ marsAdjusted t L)
    (hp : 0 ≤ phobosAdjusted t L) :
    pyTrunc (marsAdjusted t L) = ⌊marsAdjusted t L⌋ ∧
    (1 ≤ (convert_earth_to_mars_fields t L).2.1 ∧
      (convert_earth_to_mars_fields t L).2.1 ≤ 668) ∧
    (0 ≤ (convert_earth_to_mars_fields t L).2.2.1 ∧
      (convert_earth_to_mars_fields t L).2.2.1 ≤ 23) ∧
    (0 ≤ (convert_earth_to_mars_fields t L).2.2.2.1 ∧
      (convert_earth_to_mars_fields t L).2.2.2.1 ≤ 61) ∧
    (0 ≤ (convert_earth_to_mars_fields t L).2.2.2.2 ∧
      (convert_earth_to_mars_fields t L).2.2.2.2 ≤ 59) ∧
    1 ≤ (convert_earth_to_phobos_fields t L).1 ∧
    (0 ≤ (convert_earth_to_phobos_fields t L).2.1 ∧
      (convert_earth_to_phobos_fields t L).2.1 ≤ 8) ∧
    (0 ≤ (convert_earth_to_phobos_fields t L).2.2.1 ∧
      (convert_earth_to_phobos_fields t L).2.2.1 ≤ 50) ∧
    (0 ≤ (convert_earth_to_phobos_fields t L).2.2.2 ∧
      (convert_earth_to_phobos_fields t L).2.2.2 ≤ 59) := by
  obtain ⟨hA, hB, hC, hD, hE0, hF, hG, hH, hI⟩ :=
    encBase_range SOL_SECONDS MARS_HOUR_LENGTH SOL_SECONDS_pos MARS_HOUR_LENGTH_pos
      (marsAdjusted t L) hm
  obtain ⟨pA, pB, pC, pD, pE0, pF, pG, pH, pI⟩ :=
    encBase_range PHOBOS_SOL_SECONDS PHOBOS_HOUR_LENGTH PHOBOS_SOL_SECONDS_pos
      PHOBOS_HOUR_LENGTH_pos (phobosAdjusted t L) hp
  have hHL : MARS_HOUR_LENGTH = (3700 : ℚ) := by norm_num [MARS_HOUR_LENGTH, SOL_SECONDS]
  have hS24 : SOL_SECONDS = 24 * MARS_HOUR_LENGTH := by
    norm_num [SOL_SECONDS, MARS_HOUR_LENGTH]
  have pHL : PHOBOS_HOUR_LENGTH = (3060 : ℚ) := by
    norm_num [PHOBOS_HOUR_LENGTH, PHOBOS_SOL_SECONDS, PHOBOS_HOURS_PER_DAY]
  have pS9 : PHOBOS_SOL_SECONDS = 9 * PHOBOS_HOUR_LENGTH := by
    norm_num [PHOBOS_SOL_SECONDS, PHOBOS_HOUR_LENGTH, PHOBOS_HOURS_PER_DAY]
  have hhr : (convert_earth_to_mars_fields t L).2.2.1 ≤ 23 := by
    have h1 : ((encBase SOL_SECONDS MARS_HOUR_LENGTH (marsAdjusted t L)).2.1 : ℚ)
        * MARS_HOUR_LENGTH < 24 * MARS_HOUR_LENGTH := by
      calc ((encBase SOL_SECONDS MARS_HOUR_LENGTH (marsAdjusted t L)).2.1 : ℚ)
          * MARS_HOUR_LENGTH
          ≤ (marsAdjusted t L - (pyTrunc (marsAdjusted t L) : ℚ)) * SOL_SECONDS := hC
        _ < SOL_SECONDS := hD
        _ = 24 * MARS_HOUR_LENGTH := hS24
    have h2 : ((encBase SOL_SECONDS MARS_HOUR_LENGTH (marsAdjusted t L)).2.1 : ℚ) < 24 :=
      (mul_lt_mul_right MARS_HOUR_LENGTH_pos).mp h1
    have h3 : (encBase SOL_SECONDS MARS_HOUR_LENGTH (marsAdjusted t L)).2.1 < 24 := by
      exact_mod_cast h2
    show (encBase SOL_SECONDS MARS_HOUR_LENGTH (marsAdjusted t L)).2.1 ≤ 23
    omega
  have hmin : (convert_earth_to_mars_fields t L).2.2.2.1 ≤ 61 := by
    have h1 : ((encBase SOL_SECONDS MARS_HOUR_LENGTH (marsAdjusted t L)).2.2.1 : ℚ) * 60
        < 3700 := by
      calc ((encBase SOL_SECONDS MARS_HOUR_LENGTH (marsAdjusted t L)).2.2.1 : ℚ) * 60
          ≤ pyFMod ((marsAdjusted t L - (pyTrunc (marsAdjusted t L) : ℚ)) * SOL_SECONDS)
            MARS_HOUR_LENGTH := hF
        _ < MARS_HOUR_LENGTH := hG
        _ = 3700 := hHL
    have h2 : (encBase SOL_SECONDS MARS_HOUR_LENGTH (marsAdjusted t L)).2.2.1 * 60
        < 3700 := by exact_mod_cast h1
    show (encBase SOL_SECONDS MARS_HOUR_LENGTH (marsAdjusted t L)).2.2.1 ≤ 61
    omega
  have phr : (convert_earth_to_phobos_fields t L).2.1 ≤ 8 := by
    have h1 : ((encBase PHOBOS_SOL_SECONDS PHOBOS_HOUR_LENGTH (phobosAdjusted t L)).2.1 : ℚ)
        * PHOBOS_HOUR_LENGTH < 9 * PHOBOS_HOUR_LENGTH := by
      calc ((encBase PHOBOS_SOL_SECONDS PHOBOS_HOUR_LENGTH (phobosAdjusted t L)).2.1 : ℚ)
          * PHOBOS_HOUR_LENGTH
          ≤ (phobosAdjusted t L - (pyTrunc (phobosAdjusted t L) : ℚ)) * PHOBOS_SOL_SECONDS :=
            pC
        _ < PHOBOS_SOL_SECONDS := pD
        _ = 9 * PHOBOS_HOUR_LENGTH := pS9
    have h2 : ((encBase PHOBOS_SOL_SECONDS PHOBOS_HOUR_LENGTH (phobosAdjusted t L)).2.1 : ℚ)
        < 9 := (mul_lt_mul_right PHOBOS_HOUR_LENGTH_pos).mp h1
    have h3 : (encBase PHOBOS_SOL_SECONDS PHOBOS_HOUR_LENGTH (phobosAdjusted t L)).2.1
        < 9 := by exact_mod_cast h2
    show (encBase PHOBOS_SOL_SECONDS PHOBOS_HOUR_LENGTH (phobosAdjusted t L)).2.1 ≤ 8
    omega
  have pmin : (convert_earth_to_phobos_fields t L).2.2.1 ≤ 50 := by
    have h1 : ((encBase PHOBOS_SOL_SECONDS PHOBOS_HOUR_LENGTH (phobosAdjusted t L)).2.2.1 : ℚ)
        * 60 < 3060 := by
      calc ((encBase PHOBOS_SOL_SECONDS PHOBOS_HOUR_LENGTH (phobosAdjusted t L)).2.2.1 : ℚ)
          * 60
          ≤ pyFMod ((phobosAdjusted t L - (pyTrunc (phobosAdjusted t L) : ℚ))
            * PHOBOS_SOL_SECONDS) PHOBOS_HOUR_LENGTH := pF
        _ < PHOBOS_HOUR_LENGTH := pG
        _ = 3060 := pHL
    have h2 : (encBase PHOBOS_SOL_SECONDS PHOBOS_HOUR_LENGTH (phobosAdjusted t L)).2.2.1 * 60
        < 3060 := by exact_mod_cast h1
    show (encBase PHOBOS_SOL_SECONDS PHOBOS_HOUR_LENGTH (phobosAdjusted t L)).2.2.1 ≤ 50
    omega
  have hdoy1 : 1 ≤ (convert_earth_to_mars_fields t L).2.1 := by
    show 1 ≤ Int.fmod ((encBase SOL_SECONDS MARS_HOUR_LENGTH (marsAdjusted t L)).1) 668 + 1
    rw [Int.fmod_eq_emod _ (by norm_num)]
    omega
  have hdoy2 : (convert_earth_to_mars_fields t L).2.1 ≤ 668 := by
    show Int.fmod ((encBase SOL_SECONDS MARS_HOUR_LENGTH (marsAdjusted t L)).1) 668 + 1
      ≤ 668
    rw [Int.fmod_eq_emod _ (by norm_num)]
    omega
  have pday : 1 ≤ (convert_earth_to_phobos_fields t L).1 := by
    show 1 ≤ (encBase PHOBOS_SOL_SECONDS PHOBOS_HOUR_LENGTH (phobosAdjusted t L)).1 + 1
    have h1 : 0 ≤ ⌊phobosAdjusted t L⌋ := Int.floor_nonneg.mpr hp
    have h2 : (encBase PHOBOS_SOL_SECONDS PHOBOS_HOUR_LENGTH (phobosAdjusted t L)).1
        = ⌊phobosAdjusted t L⌋ := pA
    omega
  have hsec : (convert_earth_to_mars_fields t L).2.2.2.2 ≤ 59 := by
    show (encBase SOL_SECONDS MARS_HOUR_LENGTH (marsAdjusted t L)).2.2.2 ≤ 59
    omega
  have psec : (convert_earth_to_phobos_fields t L).2.2.2 ≤ 59 := by
    show (encBase PHOBOS_SOL_SECONDS PHOBOS_HOUR_LENGTH (phobosAdjusted t L)).2.2.2 ≤ 59
    omega
  exact ⟨pyTrunc_eq_floor _ hm, ⟨hdoy1, hdoy2⟩, ⟨hB, hhr⟩, ⟨hE0, hmin⟩,
    ⟨hH, hsec⟩, pday, ⟨pB, phr⟩, ⟨pE0, pmin⟩, ⟨pH, psec⟩⟩

/-- Counterexample to claim C4 as stated: half a sol before the Mars
reference instant the adjusted total is minus one half, int() truncates it to
0 while the floor is -1, and the printed Mars hour is -12, outside every
valid range. -/
theorem C4_pre_epoch_trunc :
    convert_earth_to_mars_fields (-48285) 0 = (0, 1, -12, 0, 0) ∧
    pyTrunc (marsAdjusted (-48285) 0) = 0 ∧ ⌊marsAdjusted (-48285) 0⌋ = -1 ∧
    (convert_earth_to_mars_fields (-48285) 0).2.2.1 < 0 := by
  have ha : marsAdjusted (-48285 : ℚ) 0 = (-1/2 : ℚ) := by
    unfold marsAdjusted
    norm_num [MARS_REF_OFFSET_SECONDS, SOL_SECONDS, MARS_LONG_DIVISOR, MARS_HOURS_PER_DAY]
  have htr : pyTrunc (-1/2 : ℚ) = 0 := by
    unfold pyTrunc
    rw [if_neg (by norm_num)]
    norm_num
  have hT : ((-1/2 : ℚ) - ((0 : Int) : ℚ)) * SOL_SECONDS = (-44400 : ℚ) := by
    norm_num [SOL_SECONDS]
  have hh : ⌊(-44400 : ℚ) / MARS_HOUR_LENGTH⌋ = -12 := by
    norm_num [MARS_HOUR_LENGTH, SOL_SECONDS]
  have hrem : pyFMod (-44400 : ℚ) MARS_HOUR_LENGTH = (0 : ℚ) := by
    unfold pyFMod
    norm_num [MARS_HOUR_LENGTH, SOL_SECONDS]
  have hmi : ⌊(0 : ℚ) / 60⌋ = 0 := by norm_num
  have hrem2 : pyFMod (0 : ℚ) 60 = (0 : ℚ) := by
    unfold pyFMod
    norm_num
  have hsec : ⌊(0 : ℚ)⌋ = 0 := by norm_num
  have henc : encBase SOL_SECONDS MARS_HOUR_LENGTH (marsAdjusted (-48285 : ℚ) 0)
      = (0, -12, 0, 0) := by
    rw [ha]
    show (pyTrunc (-1/2 : ℚ),
      ⌊((-1/2 : ℚ) - (pyTrunc (-1/2 : ℚ) : ℚ)) * SOL_SECONDS / MARS_HOUR_LENGTH⌋,
      ⌊pyFMod (((-1/2 : ℚ) - (pyTrunc (-1/2 : ℚ) : ℚ)) * SOL_SECONDS)
        MARS_HOUR_LENGTH / 60⌋,
      ⌊pyFMod (pyFMod (((-1/2 : ℚ) - (pyTrunc (-1/2 : ℚ) : ℚ)) * SOL_SECONDS)
        MARS_HOUR_LENGTH) 60⌋) = (0, -12, 0, 0)
    rw [htr, hT, hh, hrem, hmi, hrem2, hsec]
  have hfield : convert_earth_to_mars_fields (-48285 : ℚ) 0 = (0, 1, -12, 0, 0) := by
    rw [mars_fields_encBase, henc]
    decide
  refine ⟨hfield, ?_, ?_, ?_⟩
  · rw [ha, htr]
  · rw [ha]
    norm_num
  · rw [hfield]
    decide

/-- Instance of C4 at the epoch instant with longitude zero. -/
theorem C4_trunc_ranges_inst :
    pyTrunc (marsAdjusted 0 0) = ⌊marsAdjusted 0 0⌋ ∧
    (1 ≤ (convert_earth_to_mars_fields 0 0).2.1 ∧
      (convert_earth_to_mars_fields 0 0).2.1 ≤ 668) ∧
    (0 ≤ (convert_earth_to_mars_fields 0 0).2.2.1 ∧
      (convert_earth_to_mars_fields 0 0).2.2.1 ≤ 23) ∧
    (0 ≤ (convert_earth_to_mars_fields 0 0).2.2.2.1 ∧
      (convert_earth_to_mars_fields 0 0).2.2.2.1 ≤ 61) ∧
    (0 ≤ (convert_earth_to_mars_fields 0 0).2.2.2.2 ∧
      (convert_earth_to_mars_fields 0 0).2.2.2.2 ≤ 59) ∧
    1 ≤ (convert_earth_to_phobos_fields 0 0).1 ∧
    (0 ≤ (convert_earth_to_phobos_fields 0 0).2.1 ∧
      (convert_earth_to_phobos_fields 0 0).2.1 ≤ 8) ∧
    (0 ≤ (convert_earth_to_phobos_fields 0 0).2.2.1 ∧
      (convert_earth_to_phobos_fields 0 0).2.2.1 ≤ 50) ∧
    (0 ≤ (convert_earth_to_phobos_fields 0 0).2.2.2 ∧
      (convert_earth_to_phobos_fields 0 0).2.2.2 ≤ 59) :=
  C4_trunc_ranges 0 0
    (by norm_num [marsAdjusted, MARS_REF_OFFSET_SECONDS, SOL_SECONDS,
      MARS_LONG_DIVISOR, MARS_HOURS_PER_DAY])
    (by norm_num [phobosAdjusted, PHOBOS_SOL_SECONDS, PHOBOS_LONG_DIVISOR,
      PHOBOS_HOURS_PER_DAY])

/-- Claim C5, corrected.  Mars and Saturn derive year and day-of-year from the
truncated day count by floored division and remainder; Phobos does not: its
printed day index is the raw day count plus one, with no year field and no
reduction modulo its 1000-day year. -/
theorem C5_year_day_fields (t L : ℚ) :
    (convert_earth_to_mars_fields t L).1
      = Int.fdiv (pyTrunc (marsAdjusted t L)) MARS_YEAR_SOLS ∧
    (convert_earth_to_mars_fields t L).2.1
      = Int.fmod (pyTrunc (marsAdjusted t L)) MARS_YEAR_SOLS + 1 ∧
    (convert_earth_to_saturn_fields t L).1
      = Int.fdiv (pyTrunc (saturnAdjusted t L)) SATURN_YEAR_DAYS ∧
    (convert_earth_to_saturn_fields t L).2.1
      = Int.fmod (pyTrunc (saturnAdjusted t L)) SATURN_YEAR_DAYS + 1 ∧
    (convert_earth_to_phobos_fields t L).1 = pyTrunc (phobosAdjusted t L) + 1 ∧
    convert_earth_to_phobos_date ⟨t, 0⟩ "UTC" L
      = "Phobos Day " ++ pyPad0 2 (pyTrunc (phobosAdjusted t L) + 1) ++ " "
        ++ pyPad0 2 (convert_earth_to_phobos_fields t L).2.1 ++ ":"
        ++ pyPad0 2 (convert_earth_to_phobos_fields t L).2.2.1 ++ ":"
        ++ pyPad0 2 (convert_earth_to_phobos_fields t L).2.2.2 :=
  ⟨rfl, rfl, rfl, rfl, rfl, rfl⟩

/-- Counterexample to claim C5 as stated: 1500 Phobos days after the epoch
the encoder prints Phobos Day 1501, a day index beyond the 1000-day year
length, with no year field in the output at all. -/
theorem C5_phobos_no_year :
    convert_earth_to_phobos_fields (41310000 : ℚ) 0 = (1501, 0, 0, 0) ∧
    convert_earth_to_phobos_date ⟨(41310000 : ℚ), 0⟩ "UTC" 0
      = "Phobos Day 1501 00:00:00" ∧ (1000 : Int) < 1501 := by
  have ha : phobosAdjusted (41310000 : ℚ) 0
      = ((1500 : Int) : ℚ) + (((0 : Int) : ℚ) * PHOBOS_HOUR_LENGTH + ((0 : Int) : ℚ) * 60
        + ((0 : Int) : ℚ)) / PHOBOS_SOL_SECONDS := by
    unfold phobosAdjusted
    simp only [PHOBOS_SOL_SECONDS, PHOBOS_HOUR_LENGTH, PHOBOS_LONG_DIVISOR,
      PHOBOS_HOURS_PER_DAY]
    push_cast
    norm_num
  have henc : encBase PHOBOS_SOL_SECONDS PHOBOS_HOUR_LENGTH (phobosAdjusted (41310000 : ℚ) 0)
      = (1500, 0, 0, 0) :=
    encBase_canonical PHOBOS_SOL_SECONDS PHOBOS_HOUR_LENGTH PHOBOS_SOL_SECONDS_pos
      PHOBOS_HOUR_LENGTH_pos 1500 0 0 0 _ ha (by norm_num) (by norm_num)
      (by norm_num [PHOBOS_HOUR_LENGTH, PHOBOS_SOL_SECONDS, PHOBOS_HOURS_PER_DAY])
      (by norm_num [PHOBOS_HOUR_LENGTH, PHOBOS_SOL_SECONDS, PHOBOS_HOURS_PER_DAY])
      (by norm_num) (by norm_num) (by norm_num)
  have hfield : convert_earth_to_phobos_fields (41310000 : ℚ) 0 = (1501, 0, 0, 0) := by
    rw [phobos_fields_encBase, henc]
    decide
  refine ⟨hfield, ?_, by norm_num⟩
  rw [show convert_earth_to_phobos_date ⟨(41310000 : ℚ), 0⟩ "UTC" 0
    = renderPhobosDate (convert_earth_to_phobos_fields (41310000 : ℚ) 0) from rfl, hfield]
  decide

/-- Claim C6, corrected.  An unregistered body name is not reported through a
tagged UnknownBody error: a cross-body request naming it returns the same
Conversion not supported string every unimplemented registered pair gets, and
a same-body request naming it falls through every branch and returns None. -/
theorem C6_unknown_body (b bto d t ftz ttz : String) (L1 L2 : ℚ)
    (h1 : b ≠ "Earth") (h2 : b ≠ "Mars") (h3 : b ≠ "Phobos") (h4 : b ≠ "Saturn")
    (hto : bto ≠ b) :
    perform_conversion b bto d t ftz ttz L1 L2 = .ok (some "Conversion not supported.") ∧
    perform_conversion b b d t ftz ttz L1 L2 = .ok none := by
  constructor
  · unfold perform_conversion
    rw [if_neg (fun hc => hto hc.symm), if_neg (fun hc => h1 hc.1),
      if_neg (fun hc => h1 hc.1), if_neg (fun hc => h1 hc.1), if_neg (fun hc => h2 hc.1)]
  · unfold perform_conversion
    rw [if_pos rfl, if_neg h1, if_neg h2, if_neg h3, if_neg h4]

/-- Counterexample to claim C6 as stated: Jupiter to Earth is answered with
the very string a rejected registered pair gets, and Jupiter to Jupiter
returns None; no UnknownBody-tagged error exists anywhere. -/
theorem C6_not_tagged :
    perform_conversion "Jupiter" "Earth" "1/1" "00:00:00" "UTC" "UTC" 0 0
      = .ok (some "Conversion not supported.") ∧
    perform_conversion "Saturn" "Earth" "1/1" "00:00:00" "UTC" "UTC" 0 0
      = .ok (some "Conversion not supported.") ∧
    perform_conversion "Jupiter" "Jupiter" "1/1" "00:00:00" "UTC" "UTC" 0 0 = .ok none :=
  ⟨rfl, rfl, rfl⟩

/-- Instance of C6 at the body name Jupiter. -/
theorem C6_unknown_body_inst :
    perform_conversion "Jupiter" "Earth" "0/1" "00:00:00" "UTC" "UTC" 0 0
      = .ok (some "Conversion not supported.") ∧
    perform_conversion "Jupiter" "Jupiter" "0/1" "00:00:00" "UTC" "UTC" 0 0 = .ok none :=
  C6_unknown_body "Jupiter" "Earth" "0/1" "00:00:00" "UTC" "UTC" 0 0 (by decide)
    (by decide) (by decide) (by decide) (by decide)

/-- Claim C7, corrected.  Converting a body to itself with identical auxiliary
parameters reprints the input when the parsed fields are canonical, the
longitude offset is a whole number of seconds and the pivot instant is
representable; for Phobos the day index is additionally collapsed to year
times 1000 plus day.  Outside these conditions the round trip can change the
printed fields, as the counterexample shows. -/
theorem C7_selfround :
    (∀ (d t tz : String) (f : EarthDT) (off : Int),
      strptimeFields (d ++ " " ++ t) = some f → zoneInfo tz = some off →
      perform_conversion "Earth" "Earth" d t tz tz 0 0 = .ok (some (renderEarthDT f))) ∧
    (∀ (d tstr ftz ttz : String) (y s h mi sec k : Int) (L : ℚ),
      parseBodyDate d = some (y, s) → parseTime3 tstr = some (h, mi, sec) →
      (L / MARS_LONG_DIVISOR) / MARS_HOURS_PER_DAY = (k : ℚ) / SOL_SECONDS →
      0 ≤ y → 1 ≤ s → s ≤ 668 → 0 ≤ h → 0 ≤ mi → 0 ≤ sec → sec < 60 →
      (mi : ℚ) * 60 + (sec : ℚ) < MARS_HOUR_LENGTH →
      (h : ℚ) * MARS_HOUR_LENGTH + (mi : ℚ) * 60 + (sec : ℚ) < SOL_SECONDS →
      -(EPOCH_ABS : Int)
        ≤ (y * 668 + (s - 1)) * 88800 + (h * 3700 + mi * 60 + sec) - 3885 - k →
      (y * 668 + (s - 1)) * 88800 + (h * 3700 + mi * 60 + sec) - 3885 - k
        < (MAX_ABS : Int) - (EPOCH_ABS : Int) →
      perform_conversion "Mars" "Mars" d tstr ftz ttz L L
        = .ok (some (renderBodyDate (y, s, h, mi, sec)))) ∧
    (∀ (d tstr ftz ttz : String) (y s h mi sec k : Int) (L : ℚ),
      parseBodyDate d = some (y, s) → parseTime3 tstr = some (h, mi, sec) →
      (L / PHOBOS_LONG_DIVISOR) / PHOBOS_HOURS_PER_DAY = (k : ℚ) / PHOBOS_SOL_SECONDS →
      0 ≤ y → 1 ≤ s → 0 ≤ h → 0 ≤ mi → 0 ≤ sec → sec < 60 →
      (mi : ℚ) * 60 + (sec : ℚ) < PHOBOS_HOUR_LENGTH →
      (h : ℚ) * PHOBOS_HOUR_LENGTH + (mi : ℚ) * 60 + (sec : ℚ) < PHOBOS_SOL_SECONDS →
      -(EPOCH_ABS : Int) ≤ (y * 1000 + (s - 1)) * 27540 + (h * 3060 + mi * 60 + sec) - k →
      (y * 1000 + (s - 1)) * 27540 + (h * 3060 + mi * 60 + sec) - k
        < (MAX_ABS : Int) - (EPOCH_ABS : Int) →
      perform_conversion "Phobos" "Phobos" d tstr ftz ttz L L
        = .ok (some (renderPhobosDate (y * 1000 + s, h, mi, sec)))) ∧
    (∀ (d tstr ftz ttz : String) (y s h mi sec k : Int) (L : ℚ),
      parseBodyDate d = some (y, s) → parseTime3 tstr = some (h, mi, sec) →
      (L / SATURN_LONG_DIVISOR) / SATURN_HOURS_PER_DAY = (k : ℚ) / SATURN_SOL_SECONDS →
      0 ≤ y → 1 ≤ s → s ≤ 1000 → 0 ≤ h → 0 ≤ mi → 0 ≤ sec → sec < 60 →
      (mi : ℚ) * 60 + (sec : ℚ) < SATURN_HOUR_LENGTH →
      (h : ℚ) * SATURN_HOUR_LENGTH + (mi : ℚ) * 60 + (sec : ℚ) < SATURN_SOL_SECONDS →
      -(EPOCH_ABS : Int) ≤ (y * 1000 + (s - 1)) * 37800 + (h * 3780 + mi * 60 + sec) - k →
      (y * 1000 + (s - 1)) * 37800 + (h * 3780 + mi * 60 + sec) - k
        < (MAX_ABS : Int) - (EPOCH_ABS : Int) →
      perform_conversion "Saturn" "Saturn" d tstr ftz ttz L L
        = .ok (some (renderBodyDate (y, s, h, mi, sec)))) :=
  ⟨earth_selfround, mars_selfround, phobos_selfround, saturn_selfround⟩

/-- Counterexample to claim C7 as stated: Mars to Mars at longitude 1 on both
sides, starting from sol 1 of year 0 at midnight, returns hour -1 and minute
61 instead of reprinting the input timestamp. -/
theorem C7_selfround_cex :
    perform_conversion "Mars" "Mars" "0/1" "00:00:00" "UTC" "UTC" 1 1
      = .ok (some "0/01 -1:61:39") ∧
    ("0/01 -1:61:39" : String) ≠ renderBodyDate (0, 1, 0, 0, 0) := by
  refine ⟨?_, by decide⟩
  rw [perform_mars_mars "0/1" "00:00:00" "UTC" "UTC" 1 1 0 1 _ _ (by decide)
    mars_to_earth_c7 strp_c7, enc_mars_c7]

/-- Instance of C7: Saturn to Saturn at longitude zero reprints its input. -/
theorem C7_selfround_inst :
    perform_conversion "Saturn" "Saturn" "0/1" "00:00:00" "UTC" "UTC" 0 0
      = .ok (some (renderBodyDate (0, 1, 0, 0, 0))) :=
  C7_selfround.2.2.2 "0/1" "00:00:00" "UTC" "UTC" 0 1 0 0 0 0 0 (by decide) (by decide)
    (by norm_num [SATURN_LONG_DIVISOR, SATURN_HOURS_PER_DAY, SATURN_SOL_SECONDS])
    (by norm_num) (by norm_num) (by norm_num) (by norm_num) (by norm_num) (by norm_num)
    (by norm_num)
    (by norm_num [SATURN_HOUR_LENGTH, SATURN_SOL_SECONDS, SATURN_HOURS_PER_DAY])
    (by norm_num [SATURN_HOUR_LENGTH, SATURN_SOL_SECONDS, SATURN_HOURS_PER_DAY])
    (by decide) (by decide)

/-- Claim C8, confirmed.  For a fixed destination body and longitude the
encoded timestamp is non-decreasing in the instant, in the lexicographic
order on the printed fields, with no restriction to post-epoch instants. -/
theorem C8_monotone (L t1 t2 : ℚ) (h : t1 ≤ t2) :
    lexYD (convert_earth_to_mars_fields t1 L) (convert_earth_to_mars_fields t2 L) ∧
    lexDay (convert_earth_to_phobos_fields t1 L) (convert_earth_to_phobos_fields t2 L) ∧
    lexYD (convert_earth_to_saturn_fields t1 L) (convert_earth_to_saturn_fields t2 L) :=
  ⟨mars_fields_lex t1 L t2 L (marsAdjusted_mono L t1 t2 h),
   phobos_fields_lex t1 L t2 L (phobosAdjusted_mono L t1 t2 h),
   saturn_fields_lex t1 L t2 L (saturnAdjusted_mono L t1 t2 h)⟩

/-- Instance of C8 between the instants 0 and 1 at longitude 0. -/
theorem C8_monotone_inst :
    lexYD (convert_earth_to_mars_fields 0 0) (convert_earth_to_mars_fields 1 0) ∧
    lexDay (convert_earth_to_phobos_fields 0 0) (convert_earth_to_phobos_fields 1 0) ∧
    lexYD (convert_earth_to_saturn_fields 0 0) (convert_earth_to_saturn_fields 1 0) :=
  C8_monotone 0 0 1 (by norm_num)

/-- Claim C9, confirmed.  Moving the Mars longitude 15 degrees East advances
the printed hour by exactly one modulo 24, and any Eastward longitude change
never moves the printed Mars timestamp earlier. -/
theorem C9_longitude_shift (t L : ℚ) :
    ((convert_earth_to_mars_fields t (L + 15)).2.2.1) % 24
      = ((convert_earth_to_mars_fields t L).2.2.1 + 1) % 24 ∧
    ∀ L2, L ≤ L2 →
      lexYD (convert_earth_to_mars_fields t L) (convert_earth_to_mars_fields t L2) := by
  constructor
  · have hf1 := mars_hour_formula t L
    have hf2 := mars_hour_formula t (L + 15)
    have hsh := marsAdjusted_shift t L
    rw [hsh] at hf2
    have hfl : ⌊24 * (marsAdjusted t L + 1 / 24)⌋ = ⌊24 * marsAdjusted t L⌋ + 1 := by
      have he : 24 * (marsAdjusted t L + 1 / 24) = 24 * marsAdjusted t L + 1 := by ring
      rw [he, Int.floor_add_one]
    rw [hfl] at hf2
    rw [hf1, hf2]
    omega
  · intro L2 hL
    exact mars_fields_lex t L t L2 (marsAdjusted_mono_long t L L2 hL)

/-- Instance of C9 at the epoch instant between longitudes 0 and 15. -/
theorem C9_longitude_shift_inst :
    ((convert_earth_to_mars_fields 0 (0 + 15)).2.2.1) % 24
      = ((convert_earth_to_mars_fields 0 0).2.2.1 + 1) % 24 ∧
    lexYD (convert_earth_to_mars_fields 0 0) (convert_earth_to_mars_fields 0 (0 + 15)) :=
  ⟨(C9_longitude_shift 0 0).1, (C9_longitude_shift 0 0).2 (0 + 15) (by norm_num)⟩

/-- Claim C10, confirmed.  A same-body non-Earth conversion never reads the
two Earth timezone arguments: the intermediate Earth leg is pinned to UTC, so
any two calls differing only in those arguments return identical results. -/
theorem C10_timezone_independent (d t ftz1 ttz1 ftz2 ttz2 : String) (L1 L2 : ℚ) :
    perform_conversion "Mars" "Mars" d t ftz1 ttz1 L1 L2
      = perform_conversion "Mars" "Mars" d t ftz2 ttz2 L1 L2 ∧
    perform_conversion "Phobos" "Phobos" d t ftz1 ttz1 L1 L2
      = perform_conversion "Phobos" "Phobos" d t ftz2 ttz2 L1 L2 ∧
    perform_conversion "Saturn" "Saturn" d t ftz1 ttz1 L1 L2
      = perform_conversion "Saturn" "Saturn" d t ftz2 ttz2 L1 L2 :=
  ⟨rfl, rfl, rfl⟩
